import Mathlib

/-!
A verification development for the Multi-Model Gating System: a shallow
embedding, in exact real arithmetic, of the robust estimator library
(`estimators.ts`, class `RobustEstimators`) and of the gate orchestrator
(class `MultiModelGate`), together with theorems about the gated
robust-update pipeline.

Modelling conventions, used throughout:
- JavaScript `number` values are embedded as `ℝ` (exact arithmetic; the
  floating-point rounding of the source is idealised away, but every
  explicit epsilon constant appearing in the source, such as the
  `1e-9` guards, is kept literally);
- `number[]` sample vectors of the fixed dimension `d` are `Fin d → ℝ`,
  and `number[][]` covariance matrices are `Matrix (Fin d) (Fin d) ℝ`;
- the Gauss-Jordan / ml-matrix inverse of the source is embedded as the
  Mathlib matrix inverse `A⁻¹` (they agree in exact arithmetic whenever
  the matrix is invertible, which the theorems assume where it matters);
- `logDet` (an LU sweep over `log (|U i i| + 1e-10)` in the source) is
  embedded as `Real.log |det A|`, its exact-arithmetic value;
- `matrixPower(S, -0.5)` (eigendecomposition with eigenvalues clamped
  at `1e-10` before exponentiation) is embedded, for positive-definite
  input, as the positive-semidefinite square root of `S⁻¹`;
- the real eigenvalue list produced by ml-matrix is embedded as the
  spectrum of the matrix over `ℝ`;
- `Date` values are embedded as integer milliseconds, `Math.random()`
  as an explicit stream `ℕ → ℝ` of draws passed to `robustUpdate`,
  and mutation of `this` as explicit state passing on `GateState`;
- deep copies (`cloneModelState`, spreads) are the identity on the
  immutable Lean values;
- outcome strings are abstracted to inductive tags (`RejectReason`,
  `CorridorFailure`), and alert-sink invocations are returned as an
  explicit list of `(type, message)` pairs.
-/

noncomputable section
open Classical Matrix

/-- Sample vectors of dimension `d` (`number[]` in the source). -/
abbrev Vec (d : ℕ) := Fin d → ℝ

/-- Square matrices of dimension `d` (`number[][]` in the source). -/
abbrev Mat (d : ℕ) := Matrix (Fin d) (Fin d) ℝ

/-- Per-sample source metadata (`{ source; trust; timestamp }`). -/
structure Provenance where
  source : String
  trust : ℝ
  timestamp : ℝ

namespace RobustEstimators

variable {d : ℕ}

/-- Ascending sort of a list of reals (`column.sort((a, b) => a - b)`). -/
def sortReals (l : List ℝ) : List ℝ :=
  l.mergeSort (fun a b => decide (a ≤ b))

/-- Euclidean norm of a residual vector (`Math.sqrt(r.reduce(...))`). -/
def vecNorm (r : Vec d) : ℝ :=
  Real.sqrt (∑ i, r i * r i)

/-- Coordinate-wise median (`coordinateMedian`).  Out-of-range list reads
of the source (possible only for empty data) are totalised with `getD 0`. -/
def coordinateMedian (data : List (Vec d)) : Vec d := fun j =>
  let column := sortReals (data.map (fun x => x j))
  let mid := column.length / 2
  if column.length % 2 = 0 then (column.getD (mid - 1) 0 + column.getD mid 0) / 2
  else column.getD mid 0

/-- Arithmetic mean of a list of vectors (`mean`). -/
def mean (data : List (Vec d)) : Vec d := fun j =>
  (data.map (fun x => x j)).sum / (data.length : ℝ)

/-- Sample covariance about a given centre (`sampleCovariance`), with the
source's `n - 1` denominator. -/
def sampleCovariance (data : List (Vec d)) (mu : Vec d) : Mat d :=
  Matrix.of fun i j =>
    (data.map (fun x => (x i - mu i) * (x j - mu j))).sum / ((data.length : ℝ) - 1)

/-- Mahalanobis distance of a point from a centre (`mahalanobisDistance`):
`sqrt(max(0, rᵀ Σ⁻¹ r))`. -/
def mahalanobisDistance (x : Vec d) (mu : Vec d) (Sigma : Mat d) : ℝ :=
  Real.sqrt (max 0 ((fun i => x i - mu i) ⬝ᵥ (Sigma⁻¹ *ᵥ fun i => x i - mu i)))

/-- Shrinkage blend `alpha·Σ + (1 − alpha)·Σ_prior` (`shrinkCovariance`). -/
def shrinkCovariance (Sigma SigmaPrior : Mat d) (alpha : ℝ) : Mat d :=
  Matrix.of fun i j => alpha * Sigma i j + (1 - alpha) * SigmaPrior i j

/-- The `h` samples closest in Mahalanobis distance to `(mu, Sigma)`:
the source tags each sample with its distance, sorts ascending by
distance (stably), and keeps the first `h`. -/
def selectH (data : List (Vec d)) (mu : Vec d) (Sigma : Mat d) (h : ℕ) : List (Vec d) :=
  let tagged := (data.map (fun x => mahalanobisDistance x mu Sigma)).zip data
  ((tagged.mergeSort (fun a b => decide (a.1 ≤ b.1))).take h).map Prod.snd

/-- One round of the MRCD iteration (`mrcd` loop body): keep the `h`
closest samples, recompute mean and raw covariance on that subset, and
shrink the raw covariance toward the prior. -/
def mrcdStep (data : List (Vec d)) (alpha : ℝ) (priorCov : Mat d) (h : ℕ)
    (p : Vec d × Mat d) : Vec d × Mat d :=
  let subset := selectH data p.1 p.2 h
  let mu := mean subset
  (mu, shrinkCovariance (sampleCovariance subset mu) priorCov alpha)

/-- MRCD estimator (`mrcd`): 10 rounds of `mrcdStep` from the
coordinate-wise median and full sample covariance, with `h = ⌊n/2⌋`.
The repository's call sites never pass `h`, so the default is applied
here; the identity-prior default is applied at the call sites. -/
def mrcd (data : List (Vec d)) (alpha : ℝ) (priorCov : Mat d) : Vec d × Mat d :=
  (mrcdStep data alpha priorCov (data.length / 2))^[10]
    (coordinateMedian data, sampleCovariance data (coordinateMedian data))

/-- Clipping of a single sample (`influenceClip` map body): keep the
sample if its Mahalanobis distance is within the radius, otherwise
re-add the residual scaled by `clipRadius / (dist + 1e-9)` to `mu`. -/
def clipSample (mu : Vec d) (Sigma : Mat d) (clipRadius : ℝ) (x : Vec d) : Vec d :=
  let dist := mahalanobisDistance x mu Sigma
  if dist ≤ clipRadius then x
  else fun i => mu i + (x i - mu i) * (clipRadius / (dist + 1e-9))

/-- Influence clipping of a batch (`influenceClip`). -/
def influenceClip (data : List (Vec d)) (mu : Vec d) (Sigma : Mat d)
    (clipRadius : ℝ) : List (Vec d) :=
  data.map (clipSample mu Sigma clipRadius)

/-- Catoni weight of a residual norm (`catoniMean` weight computation). -/
def catoniWeight (c norm : ℝ) : ℝ :=
  if norm < 1e-9 then 1.0 else Real.tanh (min (norm / c) 3.0) / (norm + 1e-9)

/-- One reweighting round of the Catoni mean (`catoniMean` loop body). -/
def catoniStep (data : List (Vec d)) (c : ℝ) (mu : Vec d) : Vec d :=
  let residuals := data.map (fun x => (fun i => x i - mu i : Vec d))
  let weights := residuals.map (fun r => catoniWeight c (vecNorm r))
  fun j =>
    mu j + ((residuals.zip weights).map (fun rw => rw.2 * rw.1 j)).sum / (weights.sum + 1e-9)

/-- Fuelled Catoni iteration: runs `catoniStep` until the update norm
falls below `1e-6` or the fuel (`maxIters`) is exhausted. -/
def catoniIter (data : List (Vec d)) (c : ℝ) : ℕ → Vec d → Vec d
  | 0, mu => mu
  | n + 1, mu =>
    let mu2 := catoniStep data c mu
    if vecNorm (fun i => mu2 i - mu i) < 1e-6 then mu2 else catoniIter data c n mu2

/-- Catoni bounded-influence mean (`catoniMean`), initialised at the
coordinate-wise median; the repository's call site uses the default
`maxIters = 10`. -/
def catoniMean (data : List (Vec d)) (c : ℝ) : Vec d :=
  catoniIter data c 10 (coordinateMedian data)

/-- The matrix `matrixPower(S, -0.5)` of the source, for positive
definite `S`: the positive-semidefinite square root of `S⁻¹`.  (The
source reconstructs `V·diag(λ^p)·Vᵀ` from an eigendecomposition with
eigenvalues clamped at `1e-10`; in exact arithmetic on a positive
definite matrix this is exactly that square root.)  Junk value `0`
outside the positive definite domain. -/
def invSqrtMat (S : Mat d) : Mat d :=
  if hS : S.PosDef then (hS.inv.posSemidef).sqrt else 0

/-- Spectral corridor check (`spectralCorridorCheck`): every eigenvalue
of the whitened matrix `S_R^{-1/2}·S_A·S_R^{-1/2}` must lie in
`[1 − tauSigma, 1 + tauSigma]`.  (The source checks the bounds on the
minimum and maximum of the real eigenvalue list, which is the same
condition.) -/
def spectralCorridorCheck (SigmaA SigmaR : Mat d) (tauSigma : ℝ) : Prop :=
  ∀ ev ∈ spectrum ℝ (invSqrtMat SigmaR * SigmaA * invSqrtMat SigmaR),
    1 - tauSigma ≤ ev ∧ ev ≤ 1 + tauSigma

end RobustEstimators

/-- Model state (`ModelState`): mean, covariance, last-update instant in
integer milliseconds, checkpoint index. -/
structure ModelState (d : ℕ) where
  mu : Vec d
  Sigma : Mat d
  timestamp : ℤ
  checkpoint : ℕ

/-- Gate thresholds (`GateConfig`). -/
structure GateConfig where
  tauMu : ℝ
  tauSigma : ℝ
  klThreshold : ℝ
  clipRadius : ℝ
  etaMax : ℝ
  etaDecay : ℝ

/-- Running metric snapshot (`GateMetrics`). -/
structure GateMetrics where
  mahalanobis_drift : ℝ
  spectral_norm : ℝ
  kl_divergence : ℝ
  provenance_entropy : ℝ
  herfindahl_index : ℝ
  anchor_anomaly_rate : ℝ
  update_rejection_rate : ℝ
  vpin : ℝ

/-- Which corridor check failed (the source reports it in the reason
string of `withinCorridor`). -/
inductive CorridorFailure
  | meanDrift
  | spectral
  | klDivergence
deriving DecidableEq

/-- Result of `withinCorridor`. -/
structure CorridorResult where
  passed : Bool
  reason : Option CorridorFailure
deriving DecidableEq

/-- Rejection reasons of `robustUpdate` (abstracting the reason strings). -/
inductive RejectReason
  | allSamplesRejected
  | insufficientDiversity
  | gateViolation (failure : Option CorridorFailure)
deriving DecidableEq

/-- Return value of `robustUpdate` (`{ accepted; reason? }`). -/
structure UpdateResult where
  accepted : Bool
  reason : Option RejectReason
deriving DecidableEq

/-- Breaker actions (`'freeze' | 'rollback' | 'alert'`). -/
inductive BreakerAction
  | freeze
  | rollback
  | alert
deriving DecidableEq

/-- A circuit breaker (`CircuitBreaker`): name, predicate over the
metrics, action, cooldown in seconds. -/
structure CircuitBreaker where
  name : String
  condition : GateMetrics → Prop
  action : BreakerAction
  cooldown : ℤ

/-- An alert-sink invocation `(type, message)`. -/
abbrev Alert := String × String

/-- The whole mutable state of a `MultiModelGate` instance.  The breaker
registry itself is omitted: it is fixed at construction (see
`MultiModelGate.breakers`) and never mutated. -/
structure GateState (d : ℕ) where
  adaptiveModel : ModelState d
  referenceModel : ModelState d
  goldenSet : List (Vec d)
  config : GateConfig
  checkpoints : List (ModelState d)
  metrics : GateMetrics
  lastBreakerTrigger : List (String × ℤ)

namespace MultiModelGate

variable {d : ℕ}

/-- The share `count / total` of one label in a label list (the `p`,
resp. `share`, of the source's `computeEntropy` and
`computeHerfindahl` loops). -/
def sourceShare (labels : List String) (l : String) : ℝ :=
  (labels.count l : ℝ) / (labels.length : ℝ)

/-- Shannon entropy, base 2, of a list of labels (`computeEntropy`):
label frequencies are gathered in a count map and `−Σ p·log₂ p` is
accumulated over the distinct labels. -/
def computeEntropy (labels : List String) : ℝ :=
  (labels.dedup.map (fun l =>
    -(sourceShare labels l * Real.logb 2 (sourceShare labels l)))).sum

/-- Herfindahl concentration index of a list of labels
(`computeHerfindahl`): the sum of squared source shares. -/
def computeHerfindahl (labels : List String) : ℝ :=
  (labels.dedup.map (fun l => sourceShare labels l * sourceShare labels l)).sum

/-- Mahalanobis norm of a difference vector (`mahalanobisNorm`):
`sqrt(max(0, xᵀ Σ⁻¹ x))`. -/
def mahalanobisNorm (x : Vec d) (Sigma : Mat d) : ℝ :=
  Real.sqrt (max 0 (x ⬝ᵥ (Sigma⁻¹ *ᵥ x)))

/-- Log-determinant (`logDet`), in exact arithmetic: `log |det A|`. -/
def logDet (A : Mat d) : ℝ :=
  Real.log |A.det|

/-- Closed-form Gaussian KL divergence (`computeKLDivergence`):
`0.5·[tr(Σ₂⁻¹Σ₁) + (μ₂−μ₁)ᵀΣ₂⁻¹(μ₂−μ₁) − d + (logDet Σ₂ − logDet Σ₁)]`,
with the Mahalanobis term computed, as in the source, by squaring
`mahalanobisNorm`. -/
def computeKLDivergence (mu1 : Vec d) (Sigma1 : Mat d) (mu2 : Vec d) (Sigma2 : Mat d) : ℝ :=
  0.5 * ((Sigma2⁻¹ * Sigma1).trace
    + mahalanobisNorm (fun i => mu2 i - mu1 i) Sigma2 ^ 2
    - (d : ℝ)
    + (logDet Sigma2 - logDet Sigma1))

/-- Corridor check (`withinCorridor`): mean drift, then spectral
corridor, then KL divergence, short-circuiting on the first failure.
The source also records `mahalanobis_drift` (always) and
`kl_divergence` (when reached) into `this.metrics`; the updated metrics
are returned alongside the result. -/
def withinCorridor (cfg : GateConfig) (ref : ModelState d) (m : GateMetrics)
    (muNew : Vec d) (SigmaNew : Mat d) : CorridorResult × GateMetrics :=
  let mahal := mahalanobisNorm (fun i => muNew i - ref.mu i) ref.Sigma
  let m1 := { m with mahalanobis_drift := mahal }
  if mahal > cfg.tauMu then (⟨false, some CorridorFailure.meanDrift⟩, m1)
  else if ¬ RobustEstimators.spectralCorridorCheck SigmaNew ref.Sigma cfg.tauSigma then
    (⟨false, some CorridorFailure.spectral⟩, m1)
  else
    let kl := computeKLDivergence muNew SigmaNew ref.mu ref.Sigma
    let m2 := { m1 with kl_divergence := kl }
    if kl > cfg.klThreshold then (⟨false, some CorridorFailure.klDivergence⟩, m2)
    else (⟨true, none⟩, m2)

/-- Admission loop (`admissionControl` body) over the index-aligned
`(sample, provenance)` pairs, carrying the per-call `sourceCount` map:
drop a pair when its trust is below `0.3`, skip it when its source has
already provided `50` admissions in this call, and otherwise admit it
and bump its source's count.  The provenance component of each admitted
pair is kept so that specification-level statements can refer to it;
the source function returns only the data components. -/
def admissionZip : List (Vec d × Provenance) → (String → ℕ) → List (Vec d × Provenance)
  | [], _ => []
  | (x, pr) :: rest, cnt =>
    if pr.trust < 0.3 then admissionZip rest cnt
    else if 50 ≤ cnt pr.source then admissionZip rest cnt
    else (x, pr) :: admissionZip rest (fun s => if s = pr.source then cnt s + 1 else cnt s)

/-- Admission control (`admissionControl`): returns the admitted data
samples, with a fresh (all-zero) per-source count map on every call. -/
def admissionControl (batch : List (Vec d)) (provenance : List Provenance) : List (Vec d) :=
  (admissionZip (batch.zip provenance) (fun _ => 0)).map Prod.fst

/-- The label list the diversity guard builds from the admitted batch
(`admitted.map((_, i) => provenance[i].source)`): the map callback
discards the admitted sample and indexes `provenance` with the position
in the *filtered* array, so this is the source list of the first
`admitted.length` provenance entries. -/
def guardSources (admitted : List (Vec d)) (provenance : List Provenance) : List String :=
  (provenance.take admitted.length).map (fun pr => pr.source)

/-- An entry of a stratum (`{ data; trust }`). -/
structure StratumItem (d : ℕ) where
  data : Vec d
  trust : ℝ

/-- Append an item to its source's stratum, creating the stratum at the
end on first sight (JS `Map` insertion-order semantics). -/
def upsert : List (String × List (StratumItem d)) → String → StratumItem d →
    List (String × List (StratumItem d))
  | [], source, item => [(source, [item])]
  | (s, items) :: rest, source, item =>
    if s = source then (s, items ++ [item]) :: rest
    else (s, items) :: upsert rest source item

/-- Group index-aligned `(sample, provenance)` pairs by source
(`stratifiedReservoir` grouping loop). -/
def groupBySource (pairs : List (Vec d × Provenance)) : List (String × List (StratumItem d)) :=
  pairs.foldl (fun acc p => upsert acc p.2.source ⟨p.1, p.2.trust⟩) []

/-- One step of the weighted reservoir (`weightedReservoir` loop body):
the heap is kept sorted ascending by key; fill it up to `k`, then
replace the minimum-key entry whenever a larger key arrives. -/
def reservoirInsert (k : ℕ) (heap : List (StratumItem d × ℝ)) (item : StratumItem d)
    (key : ℝ) : List (StratumItem d × ℝ) :=
  if heap.length < k then
    ((item, key) :: heap).mergeSort (fun a b => decide (a.2 ≤ b.2))
  else
    match heap with
    | [] => []
    | h0 :: rest =>
      if h0.2 < key then ((item, key) :: rest).mergeSort (fun a b => decide (a.2 ≤ b.2))
      else h0 :: rest

/-- Trust-weighted reservoir sampling (`weightedReservoir`): each item
arrives paired with its uniform draw `u`, its key is `u^(1/trust)`, and
the items with the `k` largest keys are kept. -/
def weightedReservoir (items : List (StratumItem d × ℝ)) (k : ℕ) : List (StratumItem d) :=
  (items.foldl (fun heap iu => reservoirInsert k heap iu.1 (iu.2 ^ (1 / iu.1.trust))) []).map
    Prod.fst

/-- Pair every stratum item with its own draw from the random stream,
in stratum-major order (the order in which the source invokes
`Math.random()`). -/
def assignDraws : List (String × List (StratumItem d)) → (ℕ → ℝ) → ℕ →
    List (String × List (StratumItem d × ℝ))
  | [], _, _ => []
  | (s, items) :: rest, rand, off =>
    (s, items.enum.map (fun p => (p.2, rand (off + p.1)))) ::
      assignDraws rest rand (off + items.length)

/-- Stratified trust-weighted sampling (`stratifiedReservoir`): group by
source, give each stratum a quota `⌈(stratumTrust/totalTrust)·capacity⌉`,
reservoir-sample each stratum by trust, and concatenate.  As at its call
site, the provenance sequence is consumed index-aligned with `data`. -/
def stratifiedReservoir (data : List (Vec d)) (provenance : List Provenance)
    (capacity : ℕ) (rand : ℕ → ℝ) : List (Vec d) :=
  let strata := groupBySource (data.zip provenance)
  let totalTrust := (strata.map (fun st => (st.2.map (fun it => it.trust)).sum)).sum
  ((assignDraws strata rand 0).map (fun st =>
    let stratumTrust := (st.2.map (fun iu => iu.1.trust)).sum
    let quota := (⌈(stratumTrust / totalTrust) * (capacity : ℝ)⌉).toNat
    (weightedReservoir st.2 quota).map (fun it => it.data))).flatten

/-- Adaptive learning rate (`computeAdaptiveLearningRate`):
`min(etaMax, 1/(1 + 0.1·uniqueSources))`. -/
def computeAdaptiveLearningRate (cfg : GateConfig) (uniqueSources : ℕ) : ℝ :=
  min cfg.etaMax (1 / (1 + 0.1 * (uniqueSources : ℝ)))

/-- Element-wise covariance blend (`mergeCovariance`). -/
def mergeCovariance (Sigma1 Sigma2 : Mat d) (eta : ℝ) : Mat d :=
  Matrix.of fun i j => (1 - eta) * Sigma1 i j + eta * Sigma2 i j

/-- Rollback (`rollback`): replace the adaptive model with a copy of the
newest checkpoint; a no-op (the source only logs) when the history is
empty. -/
def rollback (s : GateState d) : GateState d :=
  match s.checkpoints.getLast? with
  | none => s
  | some cp => { s with adaptiveModel := cp }

/-- Checkpoint (`checkpoint`): append a copy of the adaptive model
tagged with the current history length, then drop the oldest snapshot
if the history now exceeds 20. -/
def checkpoint (s : GateState d) : GateState d :=
  let cp := { s.adaptiveModel with checkpoint := s.checkpoints.length }
  let cps := s.checkpoints ++ [cp]
  { s with checkpoints := if cps.length > 20 then cps.tail else cps }

/-- Anchor anomaly rate (`computeAnchorAnomalyRate`): the fraction of
golden-set points at Mahalanobis distance above 9 from the adaptive
model. -/
def computeAnchorAnomalyRate (s : GateState d) : ℝ :=
  ((s.goldenSet.countP (fun x =>
    decide (mahalanobisNorm (fun i => x i - s.adaptiveModel.mu i) s.adaptiveModel.Sigma > 9))
    : ℝ)) / (s.goldenSet.length : ℝ)

/-- The corridor-failure branch of `robustUpdate` (step 6 on failure):
increment the cumulative rejection counter, and if it now exceeds 10
roll back to the newest checkpoint and emit a `GATE_VIOLATION` alert. -/
def gateFailureStep (s : GateState d) : GateState d × List Alert :=
  let s1 := { s with metrics :=
    { s.metrics with update_rejection_rate := s.metrics.update_rejection_rate + 1 } }
  if s1.metrics.update_rejection_rate > 10 then
    (rollback s1, [("GATE_VIOLATION", "Gate rejection threshold exceeded")])
  else (s1, [])

/-- The fixed breaker registry (`initializeCircuitBreakers`). -/
def breakers (cfg : GateConfig) : List CircuitBreaker :=
  [ ⟨"anchor_anomaly", fun m => m.anchor_anomaly_rate > 0.0001, BreakerAction.rollback, 300⟩,
    ⟨"provenance_concentration", fun m => m.herfindahl_index > 0.2, BreakerAction.freeze, 60⟩,
    ⟨"kl_divergence_spike", fun m => m.kl_divergence > cfg.klThreshold * 2,
      BreakerAction.rollback, 600⟩,
    ⟨"update_rejection_spike", fun m => m.update_rejection_rate > 10, BreakerAction.alert, 300⟩,
    ⟨"toxic_flow", fun m => m.vpin > 0.75, BreakerAction.freeze, 120⟩ ]

/-- The cooldown test of `checkCircuitBreakers`: a breaker is skipped
while the cooldown since its last trigger has not elapsed.  The source
compares `(now − last)/1000 < cooldown` in seconds; in integer
milliseconds this is `now − last < cooldown·1000`. -/
def breakerSkip (now : ℤ) (st : GateState d) (b : CircuitBreaker) : Bool :=
  match st.lastBreakerTrigger.lookup b.name with
  | some t => decide (now - t < b.cooldown * 1000)
  | none => false

/-- Execution of a triggered breaker's action (`switch (breaker.action)`). -/
def performAction (b : CircuitBreaker) (st1 : GateState d) (alerts : List Alert) :
    GateState d × List Alert :=
  match b.action with
  | BreakerAction.rollback =>
    (rollback st1, alerts ++ [(b.name.toUpper, "Automatic rollback triggered")])
  | BreakerAction.freeze => (st1, alerts ++ [(b.name.toUpper, "Learning frozen")])
  | BreakerAction.alert => (st1, alerts ++ [(b.name.toUpper, "Threshold exceeded")])

/-- Evaluation of a single breaker (`checkCircuitBreakers` loop body):
skip while on cooldown, otherwise test its condition, record the
trigger instant (prepended, so that the newest entry is the one
`lookup` finds), and perform its action. -/
def applyBreaker (now : ℤ) (acc : GateState d × List Alert) (b : CircuitBreaker) :
    GateState d × List Alert :=
  if breakerSkip now acc.1 b then acc
  else if b.condition acc.1.metrics then
    performAction b { acc.1 with lastBreakerTrigger := (b.name, now) :: acc.1.lastBreakerTrigger }
      acc.2
  else acc

/-- Circuit-breaker sweep (`checkCircuitBreakers`): refresh the anchor
anomaly rate, then evaluate every registered breaker in order. -/
def checkCircuitBreakers (s : GateState d) (now : ℤ) : GateState d × List Alert :=
  let s0 := { s with metrics :=
    { s.metrics with anchor_anomaly_rate := computeAnchorAnomalyRate s } }
  (breakers s.config).foldl (applyBreaker now) (s0, [])

/-- Everything a `robustUpdate` call produces: the next gate state, the
returned `{ accepted; reason? }`, and the alert-sink invocations. -/
structure UpdateOutcome (d : ℕ) where
  state : GateState d
  result : UpdateResult
  alerts : List Alert

/-- The robust update pipeline (`robustUpdate`).  `rand` is the stream
of `Math.random()` draws consumed by the stratified sampler and `now`
the current instant in integer milliseconds. -/
def robustUpdate (s : GateState d) (batch : List (Vec d)) (provenance : List Provenance)
    (rand : ℕ → ℝ) (now : ℤ) : UpdateOutcome d :=
  let admitted := admissionControl batch provenance
  if admitted.length = 0 then
    ⟨s, ⟨false, some RejectReason.allSamplesRejected⟩, []⟩
  else
    let srcs := guardSources admitted provenance
    let uniqueSources := srcs.dedup.length
    let provenanceEntropy := computeEntropy srcs
    let s1 := { s with metrics := { s.metrics with
      provenance_entropy := provenanceEntropy,
      herfindahl_index := computeHerfindahl srcs } }
    if uniqueSources < 3 ∨ provenanceEntropy < 1.5 then
      ⟨s1, ⟨false, some RejectReason.insufficientDiversity⟩, []⟩
    else
      let stratified := stratifiedReservoir admitted provenance 200 rand
      let clipped := RobustEstimators.influenceClip stratified s1.adaptiveModel.mu
        s1.adaptiveModel.Sigma s1.config.clipRadius
      let muNew := RobustEstimators.catoniMean clipped 2
      let SigmaNew := (RobustEstimators.mrcd clipped 0.3 s1.referenceModel.Sigma).2
      let gm := withinCorridor s1.config s1.referenceModel s1.metrics muNew SigmaNew
      let s2 := { s1 with metrics := gm.2 }
      if gm.1.passed then
        let eta := computeAdaptiveLearningRate s2.config uniqueSources
        let merged : ModelState d :=
          { mu := fun i => (1 - eta) * s2.adaptiveModel.mu i + eta * muNew i,
            Sigma := mergeCovariance s2.adaptiveModel.Sigma SigmaNew eta,
            timestamp := now,
            checkpoint := s2.adaptiveModel.checkpoint }
        let s3 := { s2 with adaptiveModel := merged }
        let bk := checkCircuitBreakers s3 now
        let s5 := if now % 300000 < 1000 then checkpoint bk.1 else bk.1
        ⟨s5, ⟨true, none⟩, bk.2⟩
      else
        let fs := gateFailureStep s2
        ⟨fs.1, ⟨false, some (RejectReason.gateViolation gm.1.reason)⟩, fs.2⟩

/-- Construction (`MultiModelGate` constructor): the reference model is
the MRCD estimate of the golden set with shrinkage 0.3 toward the
identity prior, the adaptive model starts as a copy of it, one seed
checkpoint is captured, and the metrics start with `spectral_norm = 1`
and every other field 0. -/
def mkGate (goldenSet : List (Vec d)) (cfg : GateConfig) (now : ℤ) : GateState d :=
  let mc := RobustEstimators.mrcd goldenSet 0.3 (1 : Mat d)
  let ref : ModelState d := { mu := mc.1, Sigma := mc.2, timestamp := now, checkpoint := 0 }
  { adaptiveModel := ref,
    referenceModel := ref,
    goldenSet := goldenSet,
    config := cfg,
    checkpoints := [ref],
    metrics :=
      { mahalanobis_drift := 0, spectral_norm := 1, kl_divergence := 0,
        provenance_entropy := 0, herfindahl_index := 0, anchor_anomaly_rate := 0,
        update_rejection_rate := 0, vpin := 0 },
    lastBreakerTrigger := [] }

/-- Metrics accessor (`getMetrics`; the defensive copy is the identity
on immutable values). -/
def getMetrics (s : GateState d) : GateMetrics :=
  s.metrics

/-- Model accessor (`getModels`), as the pair (adaptive, reference). -/
def getModels (s : GateState d) : ModelState d × ModelState d :=
  (s.adaptiveModel, s.referenceModel)

/-- The arguments of one `robustUpdate` call. -/
structure UpdateCall (d : ℕ) where
  batch : List (Vec d)
  provenance : List Provenance
  rand : ℕ → ℝ
  now : ℤ

/-- A sequence of `robustUpdate` calls, threading the gate state. -/
def runUpdates (s : GateState d) (calls : List (UpdateCall d)) : GateState d :=
  calls.foldl (fun st c => (robustUpdate st c.batch c.provenance c.rand c.now).state) s

/-- A sequence of checkpoint events: before each `checkpoint()` the
adaptive model is set to the next captured state, so that the `k`-th
event snapshots `a (k-1)`. -/
def checkpointRun (s : GateState d) (a : ℕ → ModelState d) (n : ℕ) : GateState d :=
  (List.range n).foldl (fun st k => checkpoint { st with adaptiveModel := a k }) s

/-- Modelled from the spec ("compute distinct-source count and Shannon
entropy (base-2) over admitted sources"): the source labels of exactly
the admitted samples, i.e. the provenance components the admission loop
admitted.  This is the specification-level reading that the diversity
guard of `robustUpdate` is compared against. -/
def specAdmittedSources (batch : List (Vec d)) (provenance : List Provenance) : List String :=
  (admissionZip (batch.zip provenance) (fun _ => 0)).map (fun p => p.2.source)

end MultiModelGate

/-! ## Frame lemmas about the gate operations -/

namespace MultiModelGate

variable {d : ℕ}

lemma rollback_referenceModel (s : GateState d) :
    (rollback s).referenceModel = s.referenceModel := by
  unfold rollback
  cases s.checkpoints.getLast? <;> rfl

lemma rollback_metrics (s : GateState d) : (rollback s).metrics = s.metrics := by
  unfold rollback
  cases s.checkpoints.getLast? <;> rfl

lemma rollback_checkpoints (s : GateState d) : (rollback s).checkpoints = s.checkpoints := by
  unfold rollback
  cases s.checkpoints.getLast? <;> rfl

lemma checkpoint_referenceModel (s : GateState d) :
    (checkpoint s).referenceModel = s.referenceModel := rfl

lemma checkpoint_metrics (s : GateState d) : (checkpoint s).metrics = s.metrics := rfl

lemma checkpoint_adaptiveModel (s : GateState d) :
    (checkpoint s).adaptiveModel = s.adaptiveModel := rfl

lemma withinCorridor_metrics_spectral_norm (cfg : GateConfig) (ref : ModelState d)
    (m : GateMetrics) (muNew : Vec d) (SigmaNew : Mat d) :
    (withinCorridor cfg ref m muNew SigmaNew).2.spectral_norm = m.spectral_norm := by
  simp only [withinCorridor]
  split_ifs <;> rfl

lemma withinCorridor_metrics_urr (cfg : GateConfig) (ref : ModelState d)
    (m : GateMetrics) (muNew : Vec d) (SigmaNew : Mat d) :
    (withinCorridor cfg ref m muNew SigmaNew).2.update_rejection_rate =
      m.update_rejection_rate := by
  simp only [withinCorridor]
  split_ifs <;> rfl

lemma gateFailureStep_referenceModel (s : GateState d) :
    (gateFailureStep s).1.referenceModel = s.referenceModel := by
  simp only [gateFailureStep]
  split_ifs
  · exact rollback_referenceModel _
  · rfl

lemma gateFailureStep_checkpoints (s : GateState d) :
    (gateFailureStep s).1.checkpoints = s.checkpoints := by
  simp only [gateFailureStep]
  split_ifs
  · exact rollback_checkpoints _
  · rfl

lemma gateFailureStep_urr (s : GateState d) :
    (gateFailureStep s).1.metrics.update_rejection_rate =
      s.metrics.update_rejection_rate + 1 := by
  simp only [gateFailureStep]
  split_ifs
  · rw [rollback_metrics]
  · rfl

lemma gateFailureStep_spectral_norm (s : GateState d) :
    (gateFailureStep s).1.metrics.spectral_norm = s.metrics.spectral_norm := by
  simp only [gateFailureStep]
  split_ifs
  · rw [rollback_metrics]
  · rfl

lemma performAction_referenceModel (b : CircuitBreaker) (st1 : GateState d)
    (alerts : List Alert) :
    (performAction b st1 alerts).1.referenceModel = st1.referenceModel := by
  unfold performAction
  cases b.action <;> simp only [rollback_referenceModel]

lemma performAction_metrics (b : CircuitBreaker) (st1 : GateState d) (alerts : List Alert) :
    (performAction b st1 alerts).1.metrics = st1.metrics := by
  unfold performAction
  cases b.action <;> simp only [rollback_metrics]

lemma applyBreaker_referenceModel (now : ℤ) (acc : GateState d × List Alert)
    (b : CircuitBreaker) :
    (applyBreaker now acc b).1.referenceModel = acc.1.referenceModel := by
  unfold applyBreaker
  split_ifs
  · rfl
  · rw [performAction_referenceModel]
  · rfl

lemma applyBreaker_metrics (now : ℤ) (acc : GateState d × List Alert) (b : CircuitBreaker) :
    (applyBreaker now acc b).1.metrics = acc.1.metrics := by
  unfold applyBreaker
  split_ifs
  · rfl
  · rw [performAction_metrics]
  · rfl

lemma breakerFold_referenceModel (now : ℤ) :
    ∀ (l : List CircuitBreaker) (acc : GateState d × List Alert),
      ((l.foldl (applyBreaker now) acc).1.referenceModel = acc.1.referenceModel)
  | [], acc => rfl
  | b :: rest, acc => by
    rw [List.foldl_cons, breakerFold_referenceModel now rest, applyBreaker_referenceModel]

lemma breakerFold_metrics (now : ℤ) :
    ∀ (l : List CircuitBreaker) (acc : GateState d × List Alert),
      ((l.foldl (applyBreaker now) acc).1.metrics = acc.1.metrics)
  | [], acc => rfl
  | b :: rest, acc => by
    rw [List.foldl_cons, breakerFold_metrics now rest, applyBreaker_metrics]

lemma checkCircuitBreakers_referenceModel (s : GateState d) (now : ℤ) :
    (checkCircuitBreakers s now).1.referenceModel = s.referenceModel := by
  unfold checkCircuitBreakers
  rw [breakerFold_referenceModel]

lemma checkCircuitBreakers_spectral_norm (s : GateState d) (now : ℤ) :
    (checkCircuitBreakers s now).1.metrics.spectral_norm = s.metrics.spectral_norm := by
  unfold checkCircuitBreakers
  rw [breakerFold_metrics]

lemma robustUpdate_referenceModel (s : GateState d) (batch : List (Vec d))
    (provenance : List Provenance) (rand : ℕ → ℝ) (now : ℤ) :
    (robustUpdate s batch provenance rand now).state.referenceModel = s.referenceModel := by
  simp only [robustUpdate]
  split_ifs
  · rfl
  · rfl
  · rw [checkpoint_referenceModel, checkCircuitBreakers_referenceModel]
  · rw [checkCircuitBreakers_referenceModel]
  · rw [gateFailureStep_referenceModel]

lemma robustUpdate_spectral_norm (s : GateState d) (batch : List (Vec d))
    (provenance : List Provenance) (rand : ℕ → ℝ) (now : ℤ) :
    (robustUpdate s batch provenance rand now).state.metrics.spectral_norm =
      s.metrics.spectral_norm := by
  simp only [robustUpdate]
  split_ifs
  · rfl
  · rfl
  · rw [checkpoint_metrics, checkCircuitBreakers_spectral_norm]
    exact withinCorridor_metrics_spectral_norm ..
  · rw [checkCircuitBreakers_spectral_norm]
    exact withinCorridor_metrics_spectral_norm ..
  · rw [gateFailureStep_spectral_norm]
    exact withinCorridor_metrics_spectral_norm ..

lemma runUpdates_referenceModel (s : GateState d) :
    ∀ calls : List (UpdateCall d), (runUpdates s calls).referenceModel = s.referenceModel := by
  suffices h : ∀ (calls : List (UpdateCall d)) (t : GateState d),
      (runUpdates t calls).referenceModel = t.referenceModel from fun calls => h calls s
  intro calls
  induction calls with
  | nil => intro t; rfl
  | cons c rest ih =>
    intro t
    show (runUpdates ((robustUpdate t c.batch c.provenance c.rand c.now).state)
      rest).referenceModel = _
    rw [ih, robustUpdate_referenceModel]

lemma runUpdates_spectral_norm (s : GateState d) :
    ∀ calls : List (UpdateCall d),
      (runUpdates s calls).metrics.spectral_norm = s.metrics.spectral_norm := by
  suffices h : ∀ (calls : List (UpdateCall d)) (t : GateState d),
      (runUpdates t calls).metrics.spectral_norm = t.metrics.spectral_norm from
    fun calls => h calls s
  intro calls
  induction calls with
  | nil => intro t; rfl
  | cons c rest ih =>
    intro t
    show (runUpdates ((robustUpdate t c.batch c.provenance c.rand c.now).state)
      rest).metrics.spectral_norm = _
    rw [ih, robustUpdate_spectral_norm]

end MultiModelGate

/-! ## Claim theorems -/

open MultiModelGate RobustEstimators

/-- C8: for every dataset and prior covariance, `mrcd` with `alpha = 0`
returns the supplied prior exactly; with `alpha = 1` every round — in
particular the tenth and final one, to which `mrcd` is here unfolded —
returns the unshrunk sample covariance of the `h = ⌊n/2⌋` samples
closest in Mahalanobis distance to the round's incoming estimate
(together with their mean). -/
theorem C8_mrcd_shrinkage_limits :
    (∀ (d : ℕ) (data : List (Vec d)) (prior : Mat d),
      (mrcd data 0 prior).2 = prior) ∧
    (∀ (d : ℕ) (data : List (Vec d)) (prior : Mat d) (h : ℕ) (p : Vec d × Mat d),
      (mrcdStep data 1 prior h p).2 =
        sampleCovariance (selectH data p.1 p.2 h) (mean (selectH data p.1 p.2 h)) ∧
      (mrcdStep data 1 prior h p).1 = mean (selectH data p.1 p.2 h)) ∧
    (∀ (d : ℕ) (data : List (Vec d)) (prior : Mat d),
      mrcd data 1 prior =
        mrcdStep data 1 prior (data.length / 2)
          ((mrcdStep data 1 prior (data.length / 2))^[9]
            (coordinateMedian data, sampleCovariance data (coordinateMedian data)))) := by
  refine ⟨fun d data prior => ?_, fun d data prior h p => ⟨?_, rfl⟩, fun d data prior => ?_⟩
  · unfold mrcd
    rw [Function.iterate_succ_apply']
    show (shrinkCovariance _ _ 0) = prior
    ext i j
    simp [shrinkCovariance]
  · show (shrinkCovariance _ _ 1) = _
    ext i j
    simp [shrinkCovariance]
  · unfold mrcd
    rw [Function.iterate_succ_apply']

/-- C9: the Reference model is never mutated by `robustUpdate`: a single
call preserves it exactly, any sequence of calls preserves it, and the
reference model returned by `getModels` after any run of updates on a
freshly constructed gate equals its value at construction. -/
theorem C9_reference_model_immutable :
    (∀ (d : ℕ) (s : GateState d) (batch : List (Vec d)) (provenance : List Provenance)
        (rand : ℕ → ℝ) (now : ℤ),
      (robustUpdate s batch provenance rand now).state.referenceModel = s.referenceModel) ∧
    (∀ (d : ℕ) (s : GateState d) (calls : List (UpdateCall d)),
      (runUpdates s calls).referenceModel = s.referenceModel) ∧
    (∀ (d : ℕ) (goldenSet : List (Vec d)) (cfg : GateConfig) (t : ℤ)
        (calls : List (UpdateCall d)),
      (getModels (runUpdates (mkGate goldenSet cfg t) calls)).2 =
        (getModels (mkGate goldenSet cfg t)).2) :=
  ⟨fun _ s b p r n => robustUpdate_referenceModel s b p r n,
   fun _ s calls => runUpdates_referenceModel s calls,
   fun _ g cfg t calls => runUpdates_referenceModel (mkGate g cfg t) calls⟩

/-- C10: the `spectral_norm` metric is initialised to 1 by the
constructor and never assigned afterwards: `robustUpdate` (which runs
the corridor checks and breaker evaluation), `rollback` and
`checkpoint` all leave it unchanged, so `getMetrics` reports 1 after
any sequence of updates on a freshly constructed gate. -/
theorem C10_spectral_norm_constant :
    (∀ (d : ℕ) (s : GateState d) (batch : List (Vec d)) (provenance : List Provenance)
        (rand : ℕ → ℝ) (now : ℤ),
      (robustUpdate s batch provenance rand now).state.metrics.spectral_norm =
        s.metrics.spectral_norm) ∧
    (∀ (d : ℕ) (s : GateState d), (rollback s).metrics = s.metrics ∧
      (checkpoint s).metrics = s.metrics) ∧
    (∀ (d : ℕ) (goldenSet : List (Vec d)) (cfg : GateConfig) (t : ℤ),
      (mkGate goldenSet cfg t).metrics.spectral_norm = 1) ∧
    (∀ (d : ℕ) (goldenSet : List (Vec d)) (cfg : GateConfig) (t : ℤ)
        (calls : List (UpdateCall d)),
      (getMetrics (runUpdates (mkGate goldenSet cfg t) calls)).spectral_norm = 1) := by
  refine ⟨fun _ s b p r n => robustUpdate_spectral_norm s b p r n,
    fun _ s => ⟨rollback_metrics s, checkpoint_metrics s⟩,
    fun _ _ _ _ => rfl,
    fun _ g cfg t calls => ?_⟩
  show (runUpdates (mkGate g cfg t) calls).metrics.spectral_norm = 1
  rw [runUpdates_spectral_norm]
  rfl

/-! ## Concrete one-dimensional instances used by witnesses and
counterexamples -/

/-- A concrete one-dimensional model state. -/
def modelState0 : ModelState 1 :=
  { mu := fun _ => 0, Sigma := 1, timestamp := 0, checkpoint := 0 }

/-- The default configuration of the source constructor. -/
def gateConfig0 : GateConfig :=
  { tauMu := 0.5, tauSigma := 0.15, klThreshold := 0.1, clipRadius := 3,
    etaMax := 0.05, etaDecay := 0.995 }

/-- The initial metric snapshot of the source constructor. -/
def gateMetrics0 : GateMetrics :=
  { mahalanobis_drift := 0, spectral_norm := 1, kl_divergence := 0, provenance_entropy := 0,
    herfindahl_index := 0, anchor_anomaly_rate := 0, update_rejection_rate := 0, vpin := 0 }

/-- A concrete freshly-initialised one-dimensional gate state. -/
def gateState0 : GateState 1 :=
  { adaptiveModel := modelState0, referenceModel := modelState0, goldenSet := [],
    config := gateConfig0, checkpoints := [modelState0], metrics := gateMetrics0,
    lastBreakerTrigger := [] }

/-- The same state with the cumulative rejection counter already at 10. -/
def gateState10 : GateState 1 :=
  { gateState0 with metrics := { gateMetrics0 with update_rejection_rate := 10 } }

/-- A trivial random stream. -/
def rand0 : ℕ → ℝ := fun _ => 0

/-- Whether a `robustUpdate` outcome is a corridor (gate) violation. -/
def isGateViolation : Option RejectReason → Bool
  | some (RejectReason.gateViolation _) => true
  | _ => false

/-! ## C3: rejection counting and rollback after repeated corridor
failures -/

namespace MultiModelGate

variable {d : ℕ}

lemma gateFailureStep_rollback (s : GateState d) (hcp : s.checkpoints ≠ [])
    (hc : 10 < s.metrics.update_rejection_rate + 1) :
    s.checkpoints.getLast? = some (gateFailureStep s).1.adaptiveModel ∧
      (gateFailureStep s).2 ≠ [] := by
  simp only [gateFailureStep]
  rw [if_pos hc]
  refine ⟨?_, by simp⟩
  unfold rollback
  cases h : s.checkpoints.getLast? with
  | none => exact absurd (List.getLast?_eq_none_iff.mp h) hcp
  | some cp => rfl

lemma gateFailIter_urr (n : ℕ) (s : GateState d) :
    (((fun t => (gateFailureStep t).1)^[n]) s).metrics.update_rejection_rate =
      s.metrics.update_rejection_rate + n := by
  induction n generalizing s with
  | zero => simp
  | succ n ih =>
    rw [Function.iterate_succ_apply, ih, gateFailureStep_urr]
    push_cast
    ring

lemma gateFailIter_checkpoints (n : ℕ) (s : GateState d) :
    (((fun t => (gateFailureStep t).1)^[n]) s).checkpoints = s.checkpoints := by
  induction n generalizing s with
  | zero => rfl
  | succ n ih => rw [Function.iterate_succ_apply, ih, gateFailureStep_checkpoints]

lemma checkCircuitBreakers_urr (s : GateState d) (now : ℤ) :
    (checkCircuitBreakers s now).1.metrics.update_rejection_rate =
      s.metrics.update_rejection_rate := by
  unfold checkCircuitBreakers
  rw [breakerFold_metrics]

lemma robustUpdate_urr_cases (s : GateState d) (batch : List (Vec d))
    (provenance : List Provenance) (rand : ℕ → ℝ) (now : ℤ) :
    ((robustUpdate s batch provenance rand now).state.metrics.update_rejection_rate =
        s.metrics.update_rejection_rate + 1 ∧
      isGateViolation (robustUpdate s batch provenance rand now).result.reason = true) ∨
    ((robustUpdate s batch provenance rand now).state.metrics.update_rejection_rate =
        s.metrics.update_rejection_rate ∧
      isGateViolation (robustUpdate s batch provenance rand now).result.reason = false) := by
  simp only [robustUpdate]
  split_ifs
  · exact Or.inr ⟨rfl, rfl⟩
  · exact Or.inr ⟨rfl, rfl⟩
  · refine Or.inr ⟨?_, rfl⟩
    rw [checkpoint_metrics, checkCircuitBreakers_urr]
    exact withinCorridor_metrics_urr ..
  · refine Or.inr ⟨?_, rfl⟩
    rw [checkCircuitBreakers_urr]
    exact withinCorridor_metrics_urr ..
  · refine Or.inl ⟨?_, rfl⟩
    rw [gateFailureStep_urr, withinCorridor_metrics_urr]

end MultiModelGate

/-- C3: a `robustUpdate` call bumps the cumulative rejection counter by
exactly 1 precisely when it returns a corridor (gate) violation, and
leaves it unchanged otherwise; the corridor-failure branch
(`gateFailureStep`) always adds exactly 1 to the counter and preserves
the checkpoint history; whenever the incremented counter exceeds 10 it
replaces the Adaptive model with a copy of the newest checkpoint and
emits an alert; consequently after 11 consecutive corridor failures
(with no intervening acceptance) from any reachable counter value
(`0 ≤ counter`), the Adaptive model exactly equals the most recent
checkpoint. -/
theorem C3_rejection_counter_and_rollback :
    (∀ (d : ℕ) (s : GateState d),
      (gateFailureStep s).1.metrics.update_rejection_rate =
          s.metrics.update_rejection_rate + 1 ∧
        (gateFailureStep s).1.checkpoints = s.checkpoints) ∧
    (∀ (d : ℕ) (s : GateState d) (batch : List (Vec d)) (provenance : List Provenance)
        (rand : ℕ → ℝ) (now : ℤ),
      ((robustUpdate s batch provenance rand now).state.metrics.update_rejection_rate =
          s.metrics.update_rejection_rate + 1 ∧
        isGateViolation (robustUpdate s batch provenance rand now).result.reason = true) ∨
      ((robustUpdate s batch provenance rand now).state.metrics.update_rejection_rate =
          s.metrics.update_rejection_rate ∧
        isGateViolation (robustUpdate s batch provenance rand now).result.reason = false)) ∧
    (∀ (d : ℕ) (s : GateState d), s.checkpoints ≠ [] →
      10 < s.metrics.update_rejection_rate + 1 →
      s.checkpoints.getLast? = some (gateFailureStep s).1.adaptiveModel ∧
        (gateFailureStep s).2 ≠ []) ∧
    (∀ (d : ℕ) (s : GateState d), 0 ≤ s.metrics.update_rejection_rate →
      s.checkpoints ≠ [] →
      s.checkpoints.getLast? =
        some ((((fun t => (gateFailureStep t).1)^[11]) s).adaptiveModel)) := by
  refine ⟨fun _ s => ⟨gateFailureStep_urr s, gateFailureStep_checkpoints s⟩,
    fun _ s b p r n => robustUpdate_urr_cases s b p r n,
    fun _ s hcp hc => gateFailureStep_rollback s hcp hc,
    fun _ s hc hcp => ?_⟩
  rw [show (11 : ℕ) = 10 + 1 from rfl, Function.iterate_add_apply]
  have hcp10 : (((fun t => (gateFailureStep t).1)^[10]) s).checkpoints ≠ [] := by
    rw [gateFailIter_checkpoints]; exact hcp
  have hc10 : 10 <
      (((fun t => (gateFailureStep t).1)^[10]) s).metrics.update_rejection_rate + 1 := by
    rw [gateFailIter_urr]
    push_cast
    linarith
  have h := (gateFailureStep_rollback _ hcp10 hc10).1
  rw [gateFailIter_checkpoints] at h
  exact h

/-- Witness for C3: a freshly initialised concrete gate state (counter
0, one seed checkpoint) and the same state with counter 10, with every
hypothesis discharged. -/
theorem C3_rejection_counter_and_rollback_witness :
    gateState0.checkpoints ≠ [] ∧
    (0 : ℝ) ≤ gateState0.metrics.update_rejection_rate ∧
    gateState0.checkpoints.getLast? =
      some ((((fun t => (gateFailureStep t).1)^[11]) gateState0).adaptiveModel) ∧
    gateState10.checkpoints ≠ [] ∧
    10 < gateState10.metrics.update_rejection_rate + 1 ∧
    gateState10.checkpoints.getLast? = some (gateFailureStep gateState10).1.adaptiveModel ∧
    (gateFailureStep gateState10).2 ≠ [] := by
  have hcp : gateState0.checkpoints ≠ [] := by simp [gateState0]
  have hc : (0 : ℝ) ≤ gateState0.metrics.update_rejection_rate := by
    norm_num [gateState0, gateMetrics0]
  have hcp10 : gateState10.checkpoints ≠ [] := by simp [gateState10, gateState0]
  have hc10 : 10 < gateState10.metrics.update_rejection_rate + 1 := by
    norm_num [gateState10, gateMetrics0]
  refine ⟨hcp, hc, C3_rejection_counter_and_rollback.2.2.2 1 gateState0 hc hcp,
    hcp10, hc10, (C3_rejection_counter_and_rollback.2.2.1 1 gateState10 hcp10 hc10).1,
    (C3_rejection_counter_and_rollback.2.2.1 1 gateState10 hcp10 hc10).2⟩

/-! ## C5: checkpoint tagging, capacity and FIFO eviction -/

namespace MultiModelGate

variable {d : ℕ}

lemma checkpoint_getLast (s : GateState d) :
    (checkpoint s).checkpoints.getLast? =
      some { s.adaptiveModel with checkpoint := s.checkpoints.length } := by
  simp only [checkpoint]
  split_ifs with h
  · cases hcp : s.checkpoints with
    | nil => rw [hcp] at h; simp at h
    | cons b l => simp
  · simp

lemma checkpoint_length_le (s : GateState d) (h : s.checkpoints.length ≤ 20) :
    (checkpoint s).checkpoints.length ≤ 20 := by
  simp only [checkpoint]
  split_ifs with h2
  · simp only [List.length_tail, List.length_append, List.length_singleton]
    omega
  · simp only [List.length_append, List.length_singleton] at h2 ⊢
    omega

/-- The evolution of the checkpoint history alone under one
`checkpoint()` event capturing the model `m`: append `m` tagged with
the current length, evict the head beyond capacity 20. -/
def snapList (cps : List (ModelState d)) (m : ModelState d) : List (ModelState d) :=
  let cps2 := cps ++ [{ m with checkpoint := cps.length }]
  if cps2.length > 20 then cps2.tail else cps2

lemma checkpoint_checkpoints (s : GateState d) :
    (checkpoint s).checkpoints = snapList s.checkpoints s.adaptiveModel := rfl

lemma checkpointRun_succ (s : GateState d) (a : ℕ → ModelState d) (n : ℕ) :
    checkpointRun s a (n + 1) =
      checkpoint { checkpointRun s a n with adaptiveModel := a n } := by
  unfold checkpointRun
  rw [List.range_succ, List.foldl_append]
  rfl

lemma checkpointRun_checkpoints (s : GateState d) (a : ℕ → ModelState d) :
    ∀ n, (checkpointRun s a n).checkpoints =
      (List.range n).foldl (fun c k => snapList c (a k)) s.checkpoints
  | 0 => rfl
  | n + 1 => by
    rw [checkpointRun_succ, checkpoint_checkpoints, List.range_succ, List.foldl_append]
    simp only [List.foldl_cons, List.foldl_nil]
    rw [checkpointRun_checkpoints s a n]

end MultiModelGate

/-- C5 counterexample: on a freshly initialised gate (one seed
checkpoint), the snapshots captured by the 20th and the 21st checkpoint
events carry the same index tag 20, because `checkpoint()` tags each
snapshot with the current history length, which stops growing once the
capacity 20 is reached.  The tag sequence is therefore not strictly
incrementing. -/
theorem C5_checkpoint_tag_counterexample :
    (((MultiModelGate.checkpoint (d := 1))^[20]) gateState0).checkpoints.getLast?.map
        (fun cp => cp.checkpoint) = some 20 ∧
    (((MultiModelGate.checkpoint (d := 1))^[21]) gateState0).checkpoints.getLast?.map
        (fun cp => cp.checkpoint) = some 20 := by
  constructor <;> rfl

set_option maxRecDepth 8000 in
set_option maxHeartbeats 1600000 in
/-- C5 (amended): `checkpoint()` appends a copy of the current Adaptive
model tagged with the number of snapshots held at capture time — an
index that increments strictly only while the history is below
capacity and equals 20 for every snapshot taken at capacity — and
evicts the oldest snapshot when the history exceeds capacity; the
history never grows beyond 20 snapshots, eviction is FIFO, and after 25
checkpoint events starting from the single construction-time snapshot,
exactly 20 remain, the oldest retained being the 6th captured (tag 6)
and the newest the 25th captured (tag 20). -/
theorem C5_checkpoint_capacity_and_fifo :
    (∀ (d : ℕ) (s : GateState d),
      (MultiModelGate.checkpoint s).checkpoints.getLast? =
        some { s.adaptiveModel with checkpoint := s.checkpoints.length }) ∧
    (∀ (d : ℕ) (s : GateState d), s.checkpoints.length ≤ 20 →
      (MultiModelGate.checkpoint s).checkpoints.length ≤ 20) ∧
    (∀ (d : ℕ) (s : GateState d) (a : ℕ → ModelState d) (c0 : ModelState d),
      s.checkpoints = [c0] →
      (checkpointRun s a 25).checkpoints.length = 20 ∧
      (checkpointRun s a 25).checkpoints.head? = some { a 5 with checkpoint := 6 } ∧
      (checkpointRun s a 25).checkpoints.getLast? = some { a 24 with checkpoint := 20 }) := by
  refine ⟨fun _ s => checkpoint_getLast s, fun _ s h => checkpoint_length_le s h,
    fun _ s a c0 h => ?_⟩
  have hl := checkpointRun_checkpoints s a 25
  rw [h] at hl
  rw [show List.range 25 = [0, 1, 2, 3, 4, 5, 6, 7, 8, 9, 10, 11, 12, 13, 14, 15, 16, 17,
    18, 19, 20, 21, 22, 23, 24] from rfl] at hl
  simp only [List.foldl_cons, List.foldl_nil, snapList, List.length_append, List.length_cons,
    List.length_nil, List.length_singleton, List.cons_append, List.nil_append,
    List.tail_cons] at hl
  norm_num at hl
  refine ⟨?_, ?_, ?_⟩ <;> rw [hl] <;> rfl

/-- Witness for C5 at the concrete freshly-initialised gate state. -/
theorem C5_checkpoint_capacity_and_fifo_witness :
    gateState0.checkpoints.length ≤ 20 ∧
    (MultiModelGate.checkpoint gateState0).checkpoints.length ≤ 20 ∧
    gateState0.checkpoints = [modelState0] ∧
    (checkpointRun gateState0 (fun _ => modelState0) 25).checkpoints.length = 20 ∧
    (checkpointRun gateState0 (fun _ => modelState0) 25).checkpoints.head? =
      some { modelState0 with checkpoint := 6 } := by
  have h1 : gateState0.checkpoints.length ≤ 20 := by norm_num [gateState0]
  have h2 : gateState0.checkpoints = [modelState0] := rfl
  refine ⟨h1, C5_checkpoint_capacity_and_fifo.2.1 1 gateState0 h1, h2,
    (C5_checkpoint_capacity_and_fifo.2.2 1 gateState0 (fun _ => modelState0) modelState0 h2).1,
    (C5_checkpoint_capacity_and_fifo.2.2 1 gateState0 (fun _ => modelState0) modelState0 h2).2.1⟩

/-! ## C4: the Adaptive model is mutated only by merge or rollback -/

namespace MultiModelGate

variable {d : ℕ}

lemma gateFailureStep_adaptive_of_le (s : GateState d)
    (hc : s.metrics.update_rejection_rate + 1 ≤ 10) :
    (gateFailureStep s).1.adaptiveModel = s.adaptiveModel := by
  simp only [gateFailureStep]
  rw [if_neg (by simpa using not_lt.mpr hc)]

lemma gateFailureStep_adaptive_cases (s : GateState d) :
    (gateFailureStep s).1.adaptiveModel = s.adaptiveModel ∨
      s.checkpoints.getLast? = some (gateFailureStep s).1.adaptiveModel := by
  simp only [gateFailureStep]
  split_ifs
  · unfold rollback
    cases h : s.checkpoints.getLast? with
    | none => exact Or.inl rfl
    | some cp => exact Or.inr rfl
  · exact Or.inl rfl

/-- C4: on every `robustUpdate` call that is rejected while the
cumulative rejection counter (as held in the returned state) is at most
10, the Adaptive model's mean and covariance are exactly unchanged;
and on every rejected call whatsoever the Adaptive model is either left
untouched or wholesale replaced by a copy of the newest checkpoint —
never partially mutated. -/
theorem C4_adaptive_mutation_frame :
    (∀ (d : ℕ) (s : GateState d) (batch : List (Vec d)) (provenance : List Provenance)
        (rand : ℕ → ℝ) (now : ℤ),
      (robustUpdate s batch provenance rand now).result.accepted = false →
      (robustUpdate s batch provenance rand now).state.metrics.update_rejection_rate ≤ 10 →
      (robustUpdate s batch provenance rand now).state.adaptiveModel.mu =
          s.adaptiveModel.mu ∧
        (robustUpdate s batch provenance rand now).state.adaptiveModel.Sigma =
          s.adaptiveModel.Sigma) ∧
    (∀ (d : ℕ) (s : GateState d) (batch : List (Vec d)) (provenance : List Provenance)
        (rand : ℕ → ℝ) (now : ℤ),
      (robustUpdate s batch provenance rand now).result.accepted = false →
      (robustUpdate s batch provenance rand now).state.adaptiveModel = s.adaptiveModel ∨
        s.checkpoints.getLast? =
          some (robustUpdate s batch provenance rand now).state.adaptiveModel) := by
  constructor
  · intro d s batch provenance rand now
    simp only [robustUpdate]
    split_ifs
    · intro _ _; exact ⟨rfl, rfl⟩
    · intro _ _; exact ⟨rfl, rfl⟩
    · intro hacc _; exact absurd hacc (by simp)
    · intro hacc _; exact absurd hacc (by simp)
    · intro _ hc
      rw [gateFailureStep_urr, withinCorridor_metrics_urr] at hc
      have h := gateFailureStep_adaptive_of_le
        (d := d) { s with metrics :=
          (withinCorridor s.config s.referenceModel
            { s.metrics with
              provenance_entropy := computeEntropy (guardSources
                (admissionControl batch provenance) provenance),
              herfindahl_index := computeHerfindahl (guardSources
                (admissionControl batch provenance) provenance) }
            (RobustEstimators.catoniMean (RobustEstimators.influenceClip
              (stratifiedReservoir (admissionControl batch provenance) provenance 200 rand)
              s.adaptiveModel.mu s.adaptiveModel.Sigma s.config.clipRadius) 2)
            ((RobustEstimators.mrcd (RobustEstimators.influenceClip
              (stratifiedReservoir (admissionControl batch provenance) provenance 200 rand)
              s.adaptiveModel.mu s.adaptiveModel.Sigma s.config.clipRadius) 0.3
              s.referenceModel.Sigma).2)).2 }
        (by rw [withinCorridor_metrics_urr]; exact hc)
      rw [h]
      exact ⟨rfl, rfl⟩
  · intro d s batch provenance rand now
    simp only [robustUpdate]
    split_ifs
    · intro _; exact Or.inl rfl
    · intro _; exact Or.inl rfl
    · intro hacc; exact absurd hacc (by simp)
    · intro hacc; exact absurd hacc (by simp)
    · intro _
      exact gateFailureStep_adaptive_cases ..

end MultiModelGate

/-- Witness for C4: an empty batch is rejected by admission control
with the counter still at 0, and the Adaptive model is untouched. -/
theorem C4_adaptive_mutation_frame_witness :
    (robustUpdate gateState0 [] [] rand0 0).result.accepted = false ∧
    (robustUpdate gateState0 [] [] rand0 0).state.metrics.update_rejection_rate ≤ 10 ∧
    (robustUpdate gateState0 [] [] rand0 0).state.adaptiveModel.mu =
      gateState0.adaptiveModel.mu ∧
    (robustUpdate gateState0 [] [] rand0 0).state.adaptiveModel.Sigma =
      gateState0.adaptiveModel.Sigma ∧
    ((robustUpdate gateState0 [] [] rand0 0).state.adaptiveModel = gateState0.adaptiveModel ∨
      gateState0.checkpoints.getLast? =
        some (robustUpdate gateState0 [] [] rand0 0).state.adaptiveModel) := by
  have hstate : (robustUpdate gateState0 [] [] rand0 0).state = gateState0 := rfl
  have hacc : (robustUpdate gateState0 [] [] rand0 0).result.accepted = false := rfl
  have hc : (robustUpdate gateState0 [] [] rand0 0).state.metrics.update_rejection_rate
      ≤ 10 := by
    rw [hstate]
    norm_num [gateState0, gateMetrics0]
  exact ⟨hacc, hc,
    (C4_adaptive_mutation_frame.1 1 gateState0 [] [] rand0 0 hacc hc).1,
    (C4_adaptive_mutation_frame.1 1 gateState0 [] [] rand0 0 hacc hc).2,
    C4_adaptive_mutation_frame.2 1 gateState0 [] [] rand0 0 hacc⟩

/-! ## C6: admission control -/

namespace MultiModelGate

variable {d : ℕ}

lemma admissionZip_countP (src : String) :
    ∀ (pairs : List (Vec d × Provenance)) (cnt : String → ℕ),
      (admissionZip pairs cnt).countP (fun q => q.2.source == src) ≤ 50 - cnt src
  | [], cnt => by simp [admissionZip]
  | (x, pr) :: rest, cnt => by
    simp only [admissionZip]
    split_ifs with h1 h2
    · exact admissionZip_countP src rest cnt
    · exact admissionZip_countP src rest cnt
    · rw [List.countP_cons]
      by_cases hsrc : pr.source = src
      · subst hsrc
        have hlt : cnt pr.source < 50 := lt_of_not_le h2
        have ih := admissionZip_countP pr.source rest
          (fun s => if s = pr.source then cnt s + 1 else cnt s)
        rw [if_pos rfl] at ih
        simp only [beq_self_eq_true, if_true]
        omega
      · have ih := admissionZip_countP src rest
          (fun s => if s = pr.source then cnt s + 1 else cnt s)
        rw [if_neg (fun h => hsrc h.symm)] at ih
        have hbeq : (pr.source == src) = false := beq_eq_false_iff_ne.mpr hsrc
        simp only [hbeq, Bool.false_eq_true, if_false]
        omega

lemma admissionZip_trust :
    ∀ (pairs : List (Vec d × Provenance)) (cnt : String → ℕ) (q : Vec d × Provenance),
      q ∈ admissionZip pairs cnt → 0.3 ≤ q.2.trust
  | [], _, q => by simp [admissionZip]
  | (x, pr) :: rest, cnt, q => by
    simp only [admissionZip]
    split_ifs with h1 h2
    · exact admissionZip_trust rest cnt q
    · exact admissionZip_trust rest cnt q
    · intro hmem
      rcases List.mem_cons.mp hmem with heq | hmem2
      · subst heq
        exact not_lt.mp h1
      · exact admissionZip_trust rest _ q hmem2

lemma admissionZip_replicate_length (x : Vec d) (pr : Provenance) (htr : 0.3 ≤ pr.trust) :
    ∀ (n : ℕ) (cnt : String → ℕ),
      (admissionZip (List.replicate n (x, pr)) cnt).length = min n (50 - cnt pr.source)
  | 0, cnt => by simp [admissionZip]
  | n + 1, cnt => by
    rw [List.replicate_succ]
    simp only [admissionZip]
    rw [if_neg (not_lt.mpr htr)]
    split_ifs with h2
    · rw [admissionZip_replicate_length x pr htr n cnt]
      omega
    · simp only [List.length_cons]
      rw [admissionZip_replicate_length x pr htr n
        (fun s => if s = pr.source then cnt s + 1 else cnt s)]
      rw [if_pos rfl]
      have hlt : cnt pr.source < 50 := lt_of_not_le h2
      omega

lemma robustUpdate_allRejected (s : GateState d) (batch : List (Vec d))
    (provenance : List Provenance) (rand : ℕ → ℝ) (now : ℤ)
    (h : admissionControl batch provenance = []) :
    robustUpdate s batch provenance rand now =
      ⟨s, ⟨false, some RejectReason.allSamplesRejected⟩, []⟩ := by
  simp only [robustUpdate, h]
  rfl

end MultiModelGate

/-- C6: admission control admits at most 50 samples from any single
source within one call (the per-source count map is created afresh on
every call), every admitted sample has trust at least 0.3, a uniform
single-source batch of `n` samples with admissible trust yields exactly
`min n 50` admissions — in particular a batch of 1000 samples from one
source with trust ≥ 0.3 yields exactly 50 — and when nothing survives
admission, `robustUpdate` returns the all-samples-rejected outcome with
the state (models and metrics) completely unchanged and no alerts. -/
theorem C6_admission_control_spec :
    (∀ (d : ℕ) (batch : List (Vec d)) (provenance : List Provenance) (src : String),
      (admissionZip (batch.zip provenance) (fun _ => 0)).countP
        (fun q => q.2.source == src) ≤ 50) ∧
    (∀ (d : ℕ) (batch : List (Vec d)) (provenance : List Provenance)
        (q : Vec d × Provenance),
      q ∈ admissionZip (batch.zip provenance) (fun _ => 0) → 0.3 ≤ q.2.trust) ∧
    (∀ (d : ℕ) (x : Vec d) (pr : Provenance) (n : ℕ), 0.3 ≤ pr.trust →
      (admissionControl (List.replicate n x) (List.replicate n pr)).length = min n 50) ∧
    (∀ (d : ℕ) (x : Vec d) (pr : Provenance), 0.3 ≤ pr.trust →
      (admissionControl (List.replicate 1000 x) (List.replicate 1000 pr)).length = 50) ∧
    (∀ (d : ℕ) (s : GateState d) (batch : List (Vec d)) (provenance : List Provenance)
        (rand : ℕ → ℝ) (now : ℤ),
      admissionControl batch provenance = [] →
      robustUpdate s batch provenance rand now =
        ⟨s, ⟨false, some RejectReason.allSamplesRejected⟩, []⟩) := by
  have hlen : ∀ (d : ℕ) (x : Vec d) (pr : Provenance) (n : ℕ), 0.3 ≤ pr.trust →
      (admissionControl (List.replicate n x) (List.replicate n pr)).length = min n 50 := by
    intro d x pr n htr
    unfold admissionControl
    rw [List.length_map, List.zip_replicate', admissionZip_replicate_length x pr htr]
  refine ⟨fun d b p src => ?_, fun d b p q hq => admissionZip_trust _ _ q hq,
    hlen, fun d x pr htr => ?_, fun d s b p r n h => robustUpdate_allRejected s b p r n h⟩
  · have := admissionZip_countP (d := d) src (b.zip p) (fun _ => 0)
    omega
  · rw [hlen d x pr 1000 htr]
    norm_num

/-- Witness for C6: a concrete single-source uniform batch with trust 1
and a concrete empty batch, with every hypothesis discharged. -/
theorem C6_admission_control_spec_witness :
    (0.3 : ℝ) ≤ (Provenance.mk "s" 1 0).trust ∧
    (admissionControl (List.replicate 1000 (fun _ => 0 : Vec 1))
      (List.replicate 1000 (Provenance.mk "s" 1 0))).length = 50 ∧
    ((fun _ => 0 : Vec 1), Provenance.mk "s" 1 0) ∈
      admissionZip ([(fun _ => 0 : Vec 1)].zip [Provenance.mk "s" 1 0]) (fun _ => 0) ∧
    (0.3 : ℝ) ≤ ((fun _ => 0 : Vec 1), Provenance.mk "s" 1 0).2.trust ∧
    admissionControl (d := 1) [] [] = [] ∧
    robustUpdate gateState0 [] [] rand0 0 =
      ⟨gateState0, ⟨false, some RejectReason.allSamplesRejected⟩, []⟩ := by
  have htr : (0.3 : ℝ) ≤ (Provenance.mk "s" 1 0).trust := by norm_num
  have hmem : ((fun _ => 0 : Vec 1), Provenance.mk "s" 1 0) ∈
      admissionZip ([(fun _ => 0 : Vec 1)].zip [Provenance.mk "s" 1 0]) (fun _ => 0) := by
    show _ ∈ admissionZip [((fun _ => 0 : Vec 1), Provenance.mk "s" 1 0)] (fun _ => 0)
    simp only [admissionZip]
    rw [if_neg (by norm_num), if_neg (by norm_num)]
    exact List.mem_cons_self _ _
  exact ⟨htr, C6_admission_control_spec.2.2.2.1 1 (fun _ => 0) (Provenance.mk "s" 1 0) htr,
    hmem, C6_admission_control_spec.2.1 1 [fun _ => 0] [Provenance.mk "s" 1 0] _ hmem,
    rfl, C6_admission_control_spec.2.2.2.2 1 gateState0 [] [] rand0 0 rfl⟩

/-! ## C7: influence clipping -/

namespace RobustEstimators

variable {d : ℕ}

lemma quadform_nonneg (S : Mat d) (hS : S.PosDef) (v : Vec d) :
    0 ≤ v ⬝ᵥ (S⁻¹ *ᵥ v) := by
  simpa using (hS.inv.posSemidef).2 v

lemma mahalanobisDistance_nonneg (x mu : Vec d) (S : Mat d) :
    0 ≤ mahalanobisDistance x mu S :=
  Real.sqrt_nonneg _

lemma mahalanobisDistance_sq (x mu : Vec d) (S : Mat d) (hS : S.PosDef) :
    mahalanobisDistance x mu S ^ 2 =
      (fun i => x i - mu i) ⬝ᵥ (S⁻¹ *ᵥ fun i => x i - mu i) := by
  unfold mahalanobisDistance
  rw [max_eq_right (quadform_nonneg S hS _), Real.sq_sqrt (quadform_nonneg S hS _)]

lemma mahalanobisDistance_scale (x mu : Vec d) (S : Mat d) (hS : S.PosDef)
    {s : ℝ} (hs : 0 ≤ s) :
    mahalanobisDistance (fun i => mu i + (x i - mu i) * s) mu S =
      s * mahalanobisDistance x mu S := by
  unfold mahalanobisDistance
  have hres : (fun i => (mu i + (x i - mu i) * s) - mu i) = s • fun i => x i - mu i := by
    funext i
    simp [smul_eq_mul]
    ring
  rw [hres, Matrix.mulVec_smul, Matrix.smul_dotProduct, Matrix.dotProduct_smul,
    smul_eq_mul, smul_eq_mul, ← mul_assoc]
  rw [max_eq_right (mul_nonneg (mul_nonneg hs hs) (quadform_nonneg S hS _)),
    max_eq_right (quadform_nonneg S hS _),
    show s * s * ((fun i => x i - mu i) ⬝ᵥ (S⁻¹ *ᵥ fun i => x i - mu i)) =
      s ^ 2 * ((fun i => x i - mu i) ⬝ᵥ (S⁻¹ *ᵥ fun i => x i - mu i)) by ring,
    Real.sqrt_mul (sq_nonneg s), Real.sqrt_sq hs]

lemma clipSample_of_le (mu : Vec d) (S : Mat d) (r : ℝ) (x : Vec d)
    (h : mahalanobisDistance x mu S ≤ r) : clipSample mu S r x = x := by
  simp only [clipSample]
  rw [if_pos h]

lemma clipSample_of_gt (mu : Vec d) (S : Mat d) (r : ℝ) (x : Vec d)
    (h : r < mahalanobisDistance x mu S) :
    clipSample mu S r x =
      fun i => mu i + (x i - mu i) * (r / (mahalanobisDistance x mu S + 1e-9)) := by
  simp only [clipSample]
  rw [if_neg (not_le.mpr h)]

lemma clipSample_dist_of_gt (mu : Vec d) (S : Mat d) (hS : S.PosDef) (r : ℝ)
    (hr : 0 ≤ r) (x : Vec d) (h : r < mahalanobisDistance x mu S) :
    mahalanobisDistance (clipSample mu S r x) mu S =
      r / (mahalanobisDistance x mu S + 1e-9) * mahalanobisDistance x mu S := by
  rw [clipSample_of_gt mu S r x h]
  exact mahalanobisDistance_scale x mu S hS
    (div_nonneg hr (add_nonneg (mahalanobisDistance_nonneg x mu S) (by norm_num)))

lemma clipSample_dist_le (mu : Vec d) (S : Mat d) (hS : S.PosDef) (r : ℝ)
    (hr : 0 ≤ r) (x : Vec d) :
    mahalanobisDistance (clipSample mu S r x) mu S ≤ r := by
  by_cases h : mahalanobisDistance x mu S ≤ r
  · rw [clipSample_of_le mu S r x h]
    exact h
  · push_neg at h
    rw [clipSample_dist_of_gt mu S hS r hr x h]
    have hd : 0 ≤ mahalanobisDistance x mu S := mahalanobisDistance_nonneg x mu S
    rw [div_mul_eq_mul_div, div_le_iff₀ (add_pos_of_nonneg_of_pos hd (by norm_num))]
    nlinarith

/-- The Mahalanobis distance of the concrete sample `[2]` from centre
`[0]` under the identity covariance is 2. -/
lemma mahalanobisDistance_two :
    mahalanobisDistance (fun _ => 2 : Vec 1) (fun _ => 0) (1 : Mat 1) = 2 := by
  unfold mahalanobisDistance
  rw [inv_one]
  rw [show ((fun i => (fun _ => 2 : Vec 1) i - (fun _ => 0 : Vec 1) i) : Vec 1) =
    (fun _ => 2 : Vec 1) from by funext i; simp]
  rw [Matrix.one_mulVec]
  rw [show ((fun _ => 2 : Vec 1) ⬝ᵥ (fun _ => 2 : Vec 1)) = 4 from by
    simp [Matrix.dotProduct, Fin.sum_univ_one]; norm_num]
  rw [max_eq_right (by norm_num : (0:ℝ) ≤ 4)]
  rw [show (4 : ℝ) = 2 ^ 2 by norm_num, Real.sqrt_sq (by norm_num : (0:ℝ) ≤ 2)]

end RobustEstimators

/-- C7 counterexample: with `mu = [0]`, `Sigma = [[1]]`, `clipRadius = 1`
the sample `[2]` is clipped (its distance 2 exceeds the radius), but the
clipped output's Mahalanobis distance is `2/(2 + 1e-9)`, not exactly
`clipRadius = 1`: the source rescales by `clipRadius/(dist + 1e-9)`, so
the rescaled residual's distance always falls strictly short of the
radius. -/
theorem C7_clip_exact_radius_counterexample :
    1 < RobustEstimators.mahalanobisDistance (fun _ => 2 : Vec 1) (fun _ => 0) (1 : Mat 1) ∧
    RobustEstimators.mahalanobisDistance
        (RobustEstimators.clipSample (fun _ => 0) (1 : Mat 1) 1 (fun _ => 2))
        (fun _ => 0) (1 : Mat 1) = 2 / (2 + 1e-9) ∧
    RobustEstimators.mahalanobisDistance
        (RobustEstimators.clipSample (fun _ => 0) (1 : Mat 1) 1 (fun _ => 2))
        (fun _ => 0) (1 : Mat 1) ≠ 1 := by
  have h2 := RobustEstimators.mahalanobisDistance_two
  have hgt : (1:ℝ) < RobustEstimators.mahalanobisDistance (fun _ => 2 : Vec 1)
      (fun _ => 0) (1 : Mat 1) := by rw [h2]; norm_num
  have hdist := RobustEstimators.clipSample_dist_of_gt (fun _ => 0) (1 : Mat 1)
    Matrix.PosDef.one 1 (by norm_num) (fun _ => 2) hgt
  rw [h2] at hdist
  refine ⟨hgt, ?_, ?_⟩
  · rw [hdist]; ring
  · rw [hdist]; norm_num

/-- C7 (amended): `influenceClip` maps `clipSample` over the batch;
each sample within the radius is returned unchanged; a sample beyond
the radius is returned as `mu` plus the residual rescaled by
`clipRadius/(dist + 1e-9)`, so its output distance is
`clipRadius·dist/(dist + 1e-9)` — within the `1e-9` guard of, but
strictly below, `clipRadius`; consequently every output sample's
Mahalanobis distance from `mu` is at most `clipRadius`.  The function
is a pure function of its arguments (deterministic). -/
theorem C7_influence_clip_spec :
    (∀ (d : ℕ) (data : List (Vec d)) (mu : Vec d) (Sigma : Mat d) (r : ℝ),
      RobustEstimators.influenceClip data mu Sigma r =
        data.map (RobustEstimators.clipSample mu Sigma r)) ∧
    (∀ (d : ℕ) (mu : Vec d) (Sigma : Mat d) (r : ℝ) (x : Vec d),
      RobustEstimators.mahalanobisDistance x mu Sigma ≤ r →
      RobustEstimators.clipSample mu Sigma r x = x) ∧
    (∀ (d : ℕ) (mu : Vec d) (Sigma : Mat d) (r : ℝ) (x : Vec d),
      r < RobustEstimators.mahalanobisDistance x mu Sigma →
      RobustEstimators.clipSample mu Sigma r x =
        fun i => mu i + (x i - mu i) *
          (r / (RobustEstimators.mahalanobisDistance x mu Sigma + 1e-9))) ∧
    (∀ (d : ℕ) (mu : Vec d) (Sigma : Mat d), Sigma.PosDef → ∀ (r : ℝ), 0 ≤ r →
      ∀ (x : Vec d), r < RobustEstimators.mahalanobisDistance x mu Sigma →
      RobustEstimators.mahalanobisDistance (RobustEstimators.clipSample mu Sigma r x)
          mu Sigma =
        r / (RobustEstimators.mahalanobisDistance x mu Sigma + 1e-9) *
          RobustEstimators.mahalanobisDistance x mu Sigma) ∧
    (∀ (d : ℕ) (data : List (Vec d)) (mu : Vec d) (Sigma : Mat d), Sigma.PosDef →
      ∀ (r : ℝ), 0 ≤ r → ∀ y ∈ RobustEstimators.influenceClip data mu Sigma r,
      RobustEstimators.mahalanobisDistance y mu Sigma ≤ r) := by
  refine ⟨fun _ _ _ _ _ => rfl,
    fun _ mu S r x h => RobustEstimators.clipSample_of_le mu S r x h,
    fun _ mu S r x h => RobustEstimators.clipSample_of_gt mu S r x h,
    fun _ mu S hS r hr x h => RobustEstimators.clipSample_dist_of_gt mu S hS r hr x h,
    fun _ data mu S hS r hr y hy => ?_⟩
  obtain ⟨x, _, hx⟩ := List.mem_map.mp hy
  rw [← hx]
  exact RobustEstimators.clipSample_dist_le mu S hS r hr x

/-- Witness for C7 at the concrete one-dimensional instance `mu = [0]`,
`Sigma = [[1]]`, `clipRadius = 1`, sample `[2]`. -/
theorem C7_influence_clip_spec_witness :
    (1 : Mat 1).PosDef ∧ (0 : ℝ) ≤ 1 ∧
    1 < RobustEstimators.mahalanobisDistance (fun _ => 2 : Vec 1) (fun _ => 0) (1 : Mat 1) ∧
    RobustEstimators.clipSample (fun _ => 0) (1 : Mat 1) 1 (fun _ => 2) ∈
      RobustEstimators.influenceClip [fun _ => 2] (fun _ => 0) (1 : Mat 1) 1 ∧
    RobustEstimators.mahalanobisDistance
        (RobustEstimators.clipSample (fun _ => 0) (1 : Mat 1) 1 (fun _ => 2))
        (fun _ => 0) (1 : Mat 1) =
      1 / (RobustEstimators.mahalanobisDistance (fun _ => 2 : Vec 1) (fun _ => 0)
          (1 : Mat 1) + 1e-9) *
        RobustEstimators.mahalanobisDistance (fun _ => 2 : Vec 1) (fun _ => 0) (1 : Mat 1) ∧
    RobustEstimators.mahalanobisDistance
        (RobustEstimators.clipSample (fun _ => 0) (1 : Mat 1) 1 (fun _ => 2))
        (fun _ => 0) (1 : Mat 1) ≤ 1 := by
  have hPD : (1 : Mat 1).PosDef := Matrix.PosDef.one
  have hr : (0 : ℝ) ≤ 1 := by norm_num
  have hgt : (1:ℝ) < RobustEstimators.mahalanobisDistance (fun _ => 2 : Vec 1)
      (fun _ => 0) (1 : Mat 1) := by
    rw [RobustEstimators.mahalanobisDistance_two]; norm_num
  have hmem : RobustEstimators.clipSample (fun _ => 0) (1 : Mat 1) 1 (fun _ => 2) ∈
      RobustEstimators.influenceClip [fun _ => 2] (fun _ => 0) (1 : Mat 1) 1 :=
    List.mem_singleton.mpr rfl
  exact ⟨hPD, hr, hgt, hmem,
    C7_influence_clip_spec.2.2.2.1 1 (fun _ => 0) (1 : Mat 1) hPD 1 hr (fun _ => 2) hgt,
    C7_influence_clip_spec.2.2.2.2 1 [fun _ => 2] (fun _ => 0) (1 : Mat 1) hPD 1 hr _ hmem⟩

/-! ## C2: the corridor check -/

namespace MultiModelGate

variable {d : ℕ}

lemma invSqrtMat_mul_self (S : Mat d) (hS : S.PosDef) :
    RobustEstimators.invSqrtMat S * RobustEstimators.invSqrtMat S = S⁻¹ := by
  unfold RobustEstimators.invSqrtMat
  rw [dif_pos hS]
  exact (hS.inv.posSemidef).sqrt_mul_self

lemma invSqrtMat_posSemidef (S : Mat d) (hS : S.PosDef) :
    (RobustEstimators.invSqrtMat S).PosSemidef := by
  unfold RobustEstimators.invSqrtMat
  rw [dif_pos hS]
  exact (hS.inv.posSemidef).posSemidef_sqrt

lemma mahalanobisNorm_sq (x : Vec d) (S : Mat d) (hS : S.PosDef) :
    mahalanobisNorm x S ^ 2 = x ⬝ᵥ (S⁻¹ *ᵥ x) := by
  unfold mahalanobisNorm
  have h0 : 0 ≤ x ⬝ᵥ (S⁻¹ *ᵥ x) := RobustEstimators.quadform_nonneg S hS x
  rw [max_eq_right h0, Real.sq_sqrt h0]

lemma computeKLDivergence_closed_form (mu1 : Vec d) (S1 : Mat d) (mu2 : Vec d)
    (S2 : Mat d) (h1 : S1.PosDef) (h2 : S2.PosDef) :
    computeKLDivergence mu1 S1 mu2 S2 =
      0.5 * ((S2⁻¹ * S1).trace
        + (fun i => mu2 i - mu1 i) ⬝ᵥ (S2⁻¹ *ᵥ fun i => mu2 i - mu1 i)
        - (d : ℝ) + Real.log (S2.det / S1.det)) := by
  unfold computeKLDivergence
  rw [mahalanobisNorm_sq _ _ h2]
  unfold logDet
  rw [abs_of_pos h2.det_pos, abs_of_pos h1.det_pos,
    ← Real.log_div (ne_of_gt h2.det_pos) (ne_of_gt h1.det_pos)]

lemma withinCorridor_eq_meanDrift (cfg : GateConfig) (ref : ModelState d)
    (m : GateMetrics) (muNew : Vec d) (SigmaNew : Mat d)
    (hm : cfg.tauMu < mahalanobisNorm (fun i => muNew i - ref.mu i) ref.Sigma) :
    (withinCorridor cfg ref m muNew SigmaNew).1 =
      ⟨false, some CorridorFailure.meanDrift⟩ := by
  simp only [withinCorridor]
  rw [if_pos hm]

lemma withinCorridor_eq_spectral (cfg : GateConfig) (ref : ModelState d)
    (m : GateMetrics) (muNew : Vec d) (SigmaNew : Mat d)
    (hm : mahalanobisNorm (fun i => muNew i - ref.mu i) ref.Sigma ≤ cfg.tauMu)
    (hs : ¬ RobustEstimators.spectralCorridorCheck SigmaNew ref.Sigma cfg.tauSigma) :
    (withinCorridor cfg ref m muNew SigmaNew).1 =
      ⟨false, some CorridorFailure.spectral⟩ := by
  simp only [withinCorridor]
  rw [if_neg (not_lt.mpr hm), if_pos hs]

lemma withinCorridor_eq_kl (cfg : GateConfig) (ref : ModelState d)
    (m : GateMetrics) (muNew : Vec d) (SigmaNew : Mat d)
    (hm : mahalanobisNorm (fun i => muNew i - ref.mu i) ref.Sigma ≤ cfg.tauMu)
    (hs : RobustEstimators.spectralCorridorCheck SigmaNew ref.Sigma cfg.tauSigma)
    (hk : cfg.klThreshold < computeKLDivergence muNew SigmaNew ref.mu ref.Sigma) :
    (withinCorridor cfg ref m muNew SigmaNew).1 =
      ⟨false, some CorridorFailure.klDivergence⟩ := by
  simp only [withinCorridor]
  rw [if_neg (not_lt.mpr hm), if_neg (not_not_intro hs), if_pos hk]

lemma withinCorridor_eq_pass (cfg : GateConfig) (ref : ModelState d)
    (m : GateMetrics) (muNew : Vec d) (SigmaNew : Mat d)
    (hm : mahalanobisNorm (fun i => muNew i - ref.mu i) ref.Sigma ≤ cfg.tauMu)
    (hs : RobustEstimators.spectralCorridorCheck SigmaNew ref.Sigma cfg.tauSigma)
    (hk : computeKLDivergence muNew SigmaNew ref.mu ref.Sigma ≤ cfg.klThreshold) :
    (withinCorridor cfg ref m muNew SigmaNew).1 = ⟨true, none⟩ := by
  simp only [withinCorridor]
  rw [if_neg (not_lt.mpr hm), if_neg (not_not_intro hs), if_neg (not_lt.mpr hk)]

/-- The content of claim C2 about `withinCorridor` on a candidate
`(muNew, SigmaNew)`: the result passes iff the mean-drift, spectral and
KL conditions all hold; the rejection reason names the first failing
check in the order mean-drift, spectral, KL (short-circuiting); the
mean-drift statistic squared is the quadratic form of the candidate
mean's offset under the inverse of the Reference covariance; the
whitening matrix of the spectral check is the positive-semidefinite
square root of that inverse, and the check brackets its whole spectrum
in `[1 − tauSigma, 1 + tauSigma]`; and the KL statistic equals the
Gaussian closed form
`½[tr(Σ_R⁻¹Σ_c) + (μ_R−μ_c)ᵀΣ_R⁻¹(μ_R−μ_c) − d + ln(detΣ_R/detΣ_c)]`. -/
def corridorClaim (cfg : GateConfig) (ref : ModelState d) (m : GateMetrics)
    (muNew : Vec d) (SigmaNew : Mat d) : Prop :=
  ((withinCorridor cfg ref m muNew SigmaNew).1.passed = true ↔
    (mahalanobisNorm (fun i => muNew i - ref.mu i) ref.Sigma ≤ cfg.tauMu ∧
     RobustEstimators.spectralCorridorCheck SigmaNew ref.Sigma cfg.tauSigma ∧
     computeKLDivergence muNew SigmaNew ref.mu ref.Sigma ≤ cfg.klThreshold)) ∧
  ((withinCorridor cfg ref m muNew SigmaNew).1.reason = some CorridorFailure.meanDrift ↔
    cfg.tauMu < mahalanobisNorm (fun i => muNew i - ref.mu i) ref.Sigma) ∧
  ((withinCorridor cfg ref m muNew SigmaNew).1.reason = some CorridorFailure.spectral ↔
    (mahalanobisNorm (fun i => muNew i - ref.mu i) ref.Sigma ≤ cfg.tauMu ∧
     ¬ RobustEstimators.spectralCorridorCheck SigmaNew ref.Sigma cfg.tauSigma)) ∧
  ((withinCorridor cfg ref m muNew SigmaNew).1.reason = some CorridorFailure.klDivergence ↔
    (mahalanobisNorm (fun i => muNew i - ref.mu i) ref.Sigma ≤ cfg.tauMu ∧
     RobustEstimators.spectralCorridorCheck SigmaNew ref.Sigma cfg.tauSigma ∧
     cfg.klThreshold < computeKLDivergence muNew SigmaNew ref.mu ref.Sigma)) ∧
  mahalanobisNorm (fun i => muNew i - ref.mu i) ref.Sigma ^ 2 =
    (fun i => muNew i - ref.mu i) ⬝ᵥ (ref.Sigma⁻¹ *ᵥ fun i => muNew i - ref.mu i) ∧
  RobustEstimators.invSqrtMat ref.Sigma * RobustEstimators.invSqrtMat ref.Sigma =
    ref.Sigma⁻¹ ∧
  (RobustEstimators.invSqrtMat ref.Sigma).PosSemidef ∧
  (RobustEstimators.spectralCorridorCheck SigmaNew ref.Sigma cfg.tauSigma ↔
    ∀ ev ∈ spectrum ℝ (RobustEstimators.invSqrtMat ref.Sigma * SigmaNew *
        RobustEstimators.invSqrtMat ref.Sigma),
      1 - cfg.tauSigma ≤ ev ∧ ev ≤ 1 + cfg.tauSigma) ∧
  computeKLDivergence muNew SigmaNew ref.mu ref.Sigma =
    0.5 * ((ref.Sigma⁻¹ * SigmaNew).trace
      + (fun i => ref.mu i - muNew i) ⬝ᵥ (ref.Sigma⁻¹ *ᵥ fun i => ref.mu i - muNew i)
      - (d : ℝ) + Real.log (ref.Sigma.det / SigmaNew.det))

end MultiModelGate

/-- C2: for every candidate mean and covariance reaching the corridor
check, with the Reference and candidate covariances positive definite,
`corridorClaim` holds: the three checks are evaluated in the order
mean-drift, spectral, KL, short-circuiting on the first failure with
the reason naming that check; the call passes iff the Mahalanobis
distance of the candidate mean under the inverse Reference covariance
is at most `tauMu`, every eigenvalue of the whitened matrix
`Σ_R^{-1/2}·Σ_c·Σ_R^{-1/2}` lies in `[1−tauSigma, 1+tauSigma]`, and the
closed-form Gaussian KL divergence is at most `klThreshold`. -/
theorem C2_corridor_order_and_conditions :
    ∀ (d : ℕ) (cfg : GateConfig) (ref : ModelState d) (m : GateMetrics)
      (muNew : Vec d) (SigmaNew : Mat d),
      ref.Sigma.PosDef → SigmaNew.PosDef →
      corridorClaim cfg ref m muNew SigmaNew := by
  intro d cfg ref m muNew SigmaNew hR hc
  have hiffs :
      ((withinCorridor cfg ref m muNew SigmaNew).1.passed = true ↔
        (mahalanobisNorm (fun i => muNew i - ref.mu i) ref.Sigma ≤ cfg.tauMu ∧
         RobustEstimators.spectralCorridorCheck SigmaNew ref.Sigma cfg.tauSigma ∧
         computeKLDivergence muNew SigmaNew ref.mu ref.Sigma ≤ cfg.klThreshold)) ∧
      ((withinCorridor cfg ref m muNew SigmaNew).1.reason =
          some CorridorFailure.meanDrift ↔
        cfg.tauMu < mahalanobisNorm (fun i => muNew i - ref.mu i) ref.Sigma) ∧
      ((withinCorridor cfg ref m muNew SigmaNew).1.reason =
          some CorridorFailure.spectral ↔
        (mahalanobisNorm (fun i => muNew i - ref.mu i) ref.Sigma ≤ cfg.tauMu ∧
         ¬ RobustEstimators.spectralCorridorCheck SigmaNew ref.Sigma cfg.tauSigma)) ∧
      ((withinCorridor cfg ref m muNew SigmaNew).1.reason =
          some CorridorFailure.klDivergence ↔
        (mahalanobisNorm (fun i => muNew i - ref.mu i) ref.Sigma ≤ cfg.tauMu ∧
         RobustEstimators.spectralCorridorCheck SigmaNew ref.Sigma cfg.tauSigma ∧
         cfg.klThreshold < computeKLDivergence muNew SigmaNew ref.mu ref.Sigma)) := by
    rcases lt_or_le cfg.tauMu
        (mahalanobisNorm (fun i => muNew i - ref.mu i) ref.Sigma) with h1 | h1
    · rw [withinCorridor_eq_meanDrift cfg ref m muNew SigmaNew h1]
      refine ⟨?_, ?_, ?_, ?_⟩ <;> simp [h1]
    · by_cases h2 : RobustEstimators.spectralCorridorCheck SigmaNew ref.Sigma cfg.tauSigma
      · rcases lt_or_le cfg.klThreshold
            (computeKLDivergence muNew SigmaNew ref.mu ref.Sigma) with h3 | h3
        · rw [withinCorridor_eq_kl cfg ref m muNew SigmaNew h1 h2 h3]
          refine ⟨?_, ?_, ?_, ?_⟩ <;> simp [h1, h2, h3, not_lt.mpr h1]
        · rw [withinCorridor_eq_pass cfg ref m muNew SigmaNew h1 h2 h3]
          refine ⟨?_, ?_, ?_, ?_⟩ <;> simp [h1, h2, h3, not_lt.mpr h1, not_lt.mpr h3]
      · rw [withinCorridor_eq_spectral cfg ref m muNew SigmaNew h1 h2]
        refine ⟨?_, ?_, ?_, ?_⟩ <;> simp [h1, h2, not_lt.mpr h1]
  exact ⟨hiffs.1, hiffs.2.1, hiffs.2.2.1, hiffs.2.2.2,
    mahalanobisNorm_sq _ _ hR, invSqrtMat_mul_self _ hR, invSqrtMat_posSemidef _ hR,
    Iff.rfl, computeKLDivergence_closed_form muNew SigmaNew ref.mu ref.Sigma hc hR⟩

/-- Witness for C2 at the concrete one-dimensional Reference model with
identity covariance and a candidate equal to it. -/
theorem C2_corridor_order_and_conditions_witness :
    modelState0.Sigma.PosDef ∧ (1 : Mat 1).PosDef ∧
    corridorClaim gateConfig0 modelState0 gateMetrics0 (fun _ => 0) (1 : Mat 1) :=
  ⟨Matrix.PosDef.one, Matrix.PosDef.one,
    C2_corridor_order_and_conditions 1 gateConfig0 modelState0 gateMetrics0 (fun _ => 0)
      (1 : Mat 1) Matrix.PosDef.one Matrix.PosDef.one⟩

/-! ## C1: the diversity guard -/

/-- The concrete failing batch for the diversity guard: seven
one-dimensional samples. -/
def batch7 : List (Vec 1) := List.replicate 7 (fun _ => 0)

/-- Its provenance: the first three samples come from source `a` with
trust 0.1 (dropped by admission control), the remaining four come from
the four distinct sources `a`, `b`, `c`, `d` with trust 1 (admitted). -/
def prov7 : List Provenance :=
  [⟨"a", 0.1, 0⟩, ⟨"a", 0.1, 0⟩, ⟨"a", 0.1, 0⟩,
   ⟨"a", 1, 0⟩, ⟨"b", 1, 0⟩, ⟨"c", 1, 0⟩, ⟨"d", 1, 0⟩]

lemma admissionZip_batch7 :
    admissionZip (batch7.zip prov7) (fun _ => 0) =
      [((fun _ => 0 : Vec 1), ⟨"a", 1, 0⟩), ((fun _ => 0 : Vec 1), ⟨"b", 1, 0⟩),
       ((fun _ => 0 : Vec 1), ⟨"c", 1, 0⟩), ((fun _ => 0 : Vec 1), ⟨"d", 1, 0⟩)] := by
  show admissionZip
    [((fun _ => 0 : Vec 1), ⟨"a", 0.1, 0⟩), ((fun _ => 0 : Vec 1), ⟨"a", 0.1, 0⟩),
     ((fun _ => 0 : Vec 1), ⟨"a", 0.1, 0⟩), ((fun _ => 0 : Vec 1), ⟨"a", 1, 0⟩),
     ((fun _ => 0 : Vec 1), ⟨"b", 1, 0⟩), ((fun _ => 0 : Vec 1), ⟨"c", 1, 0⟩),
     ((fun _ => 0 : Vec 1), ⟨"d", 1, 0⟩)] (fun _ => 0) = _
  norm_num [admissionZip]
  simp

lemma admissionControl_batch7 :
    admissionControl batch7 prov7 =
      [(fun _ => 0 : Vec 1), (fun _ => 0 : Vec 1), (fun _ => 0 : Vec 1),
       (fun _ => 0 : Vec 1)] := by
  unfold admissionControl
  rw [admissionZip_batch7]
  rfl

lemma specAdmittedSources_batch7 :
    specAdmittedSources batch7 prov7 = ["a", "b", "c", "d"] := by
  unfold specAdmittedSources
  rw [admissionZip_batch7]
  rfl

lemma logb_quarter : Real.logb 2 ((4 : ℝ)⁻¹) = -2 := by
  rw [Real.logb_inv, show (4 : ℝ) = 2 ^ (2 : ℕ) by norm_num, Real.logb_pow,
    Real.logb_self_eq_one (by norm_num)]
  norm_num

lemma sourceShare_abcd (l : String) (hl : l ∈ (["a", "b", "c", "d"] : List String)) :
    sourceShare ["a", "b", "c", "d"] l = (4 : ℝ)⁻¹ := by
  unfold sourceShare
  fin_cases hl <;>
    rw [show (["a", "b", "c", "d"] : List String).count _ = 1 from by decide] <;>
    norm_num

lemma computeEntropy_abcd : computeEntropy ["a", "b", "c", "d"] = 2 := by
  unfold computeEntropy
  rw [show (["a", "b", "c", "d"] : List String).dedup = ["a", "b", "c", "d"] from by decide]
  rw [List.map_cons, List.map_cons, List.map_cons, List.map_cons, List.map_nil]
  rw [sourceShare_abcd "a" (by decide), sourceShare_abcd "b" (by decide),
    sourceShare_abcd "c" (by decide), sourceShare_abcd "d" (by decide)]
  rw [logb_quarter]
  norm_num

/-- C1: the failing input `batch7`/`prov7` shows that the diversity
guard of `robustUpdate` does not compute its statistics over the
sources of the admitted samples.  The admitted samples span the four
distinct sources `a`, `b`, `c`, `d` with base-2 entropy exactly 2 (so
the guard described by the claim would pass: `¬(4 < 3 ∨ 2 < 1.5)`), but
the guard's label list — built by `admitted.map((_, i) =>
provenance[i].source)`, i.e. the first `admitted.length` provenance
entries — collapses to the single source `a`, and `robustUpdate`
rejects the batch with the insufficient-diversity reason. -/
theorem C1_diversity_guard_misaligned_sources :
    (specAdmittedSources batch7 prov7).dedup.length = 4 ∧
    computeEntropy (specAdmittedSources batch7 prov7) = 2 ∧
    ¬((specAdmittedSources batch7 prov7).dedup.length < 3 ∨
      computeEntropy (specAdmittedSources batch7 prov7) < 1.5) ∧
    (guardSources (admissionControl batch7 prov7) prov7).dedup.length = 1 ∧
    (robustUpdate gateState0 batch7 prov7 rand0 0).result =
      ⟨false, some RejectReason.insufficientDiversity⟩ := by
  have hspec : specAdmittedSources batch7 prov7 = ["a", "b", "c", "d"] :=
    specAdmittedSources_batch7
  have hlen4 : (specAdmittedSources batch7 prov7).dedup.length = 4 := by
    rw [hspec]; decide
  have hent : computeEntropy (specAdmittedSources batch7 prov7) = 2 := by
    rw [hspec]; exact computeEntropy_abcd
  have hguard : guardSources (admissionControl batch7 prov7) prov7 = ["a", "a", "a", "a"] := by
    rw [admissionControl_batch7]; rfl
  have hlen1 : (guardSources (admissionControl batch7 prov7) prov7).dedup.length = 1 := by
    rw [hguard]; decide
  refine ⟨hlen4, hent, ?_, hlen1, ?_⟩
  · rw [hlen4, hent]
    norm_num
  · simp only [robustUpdate]
    rw [admissionControl_batch7]
    rw [if_neg (by norm_num)]
    rw [if_pos (Or.inl (show (guardSources
      [(fun _ => 0 : Vec 1), (fun _ => 0 : Vec 1), (fun _ => 0 : Vec 1),
       (fun _ => 0 : Vec 1)] prov7).dedup.length < 3 from by decide))]
